import Mathlib

/-!
Verification development for the service-assets pack-generation pipeline.

The definitions below are shallow embeddings of the JavaScript sources:
  - src/types/assetIdentifier.js        (identifier codec)
  - src/routes/packs.js                 (advance gate, job state store,
                                         pending-job registry, HTTP handlers,
                                         retention cleanup)
  - src/services/progressHub.js         (socket hub, current revision)
  - src/unnamed/part_004                (SSE progress hub revision with the
                                         replay buffer)

JavaScript dynamic values are modelled explicitly: nullable strings become
`Option String` (with `none` for `null`/`undefined`), truthiness tests on
strings check for the empty string, and `Date.now()` becomes an explicit
`now : Nat` argument.
-/

namespace ServiceAssets

/-- JS `String.prototype.trim` whitespace class (ASCII subset used here). -/
def jsIsSpace (c : Char) : Bool :=
  c = ' ' ∨ c = '\t' ∨ c = '\n' ∨ c = '\r' ∨ c = '\x0c' ∨ c = '\x0b'

/-- `String.prototype.trim` over the character list. -/
def jsTrimList (l : List Char) : List Char :=
  ((l.dropWhile jsIsSpace).reverse.dropWhile jsIsSpace).reverse

/-- JS `s.trim()`. -/
def jsTrim (s : String) : String :=
  String.mk (jsTrimList s.data)

/-- JS `s.toLowerCase()` (ASCII). -/
def jsToLower (s : String) : String :=
  String.mk (s.data.map Char.toLower)

/-- JS truthiness of a nullable string: `null`, `undefined` and `''` are falsy. -/
def jsTruthy : Option String → Bool
  | none => false
  | some s => s ≠ ""

/-- JS template-literal stringification of a nullable string
(`null` prints as `"null"`). -/
def jsTemplate : Option String → String
  | none => "null"
  | some s => s

/-- JS `String.prototype.split` with a one-character separator, over the
character list: every occurrence of the separator starts a new (possibly
empty) segment, exactly as in JavaScript. -/
def jsSplitList (sep : Char) : List Char → List (List Char)
  | [] => [[]]
  | c :: cs =>
    let rest := jsSplitList sep cs
    if c = sep then [] :: rest
    else
      match rest with
      | [] => [[c]]
      | seg :: segs => (c :: seg) :: segs

/-- JS `s.split(sep)` for a one-character separator. -/
def jsSplit (sep : Char) (s : String) : List String :=
  (jsSplitList sep s.data).map String.mk

/-- Character-list core of `String.prototype.startsWith`. -/
def strStartsWithList : List Char → List Char → Bool
  | _, [] => true
  | [], _ :: _ => false
  | c :: cs, d :: ds => c = d && strStartsWithList cs ds

/-- JS `s.startsWith(p)`. -/
def strStartsWith (s p : String) : Bool :=
  strStartsWithList s.data p.data

/-- JS `Number(s)` restricted to the decimal-digit strings this service
produces (pack names embed `Date.now()`); `Number('') = 0`, and any
non-numeric string is NaN, which the callers below collapse to 0 via their
`Number.isFinite` guards. Returns `none` for the NaN case. -/
def jsNumberNat : String → Option Nat
  | s =>
    if s = "" then some 0
    else if s.data.all Char.isDigit then s.toNat?
    else none

/-! ## AssetIdentifier codec — src/types/assetIdentifier.js -/

/-- `BOARD_LEVEL_ROLES` from assetIdentifier.js. -/
def BOARD_LEVEL_ROLES : List String :=
  ["board", "boardPreview", "background", "tileLight", "tileDark"]

/-- `isBoardLevelRole(role)`. -/
def isBoardLevelRole (role : String) : Bool :=
  BOARD_LEVEL_ROLES.contains role

/-- The `AssetIdentifier` object shape: `variant` is nullable because
callers of `formatIdentifier` pass `variant: null` for board-level ids. -/
structure AssetIdentifier where
  role : String
  boardId : Option String
  variant : Option String
  isBoardLevel : Bool
deriving Repr, DecidableEq

/-- `parseIdentifier(identifier)` from assetIdentifier.js: split on `-`,
recognise the `<role>-board-<n>[-<variant>]` shape, else the simple
`<role>-<variant>` shape, degrading to a default on short input. -/
def parseIdentifier (identifier : String) : AssetIdentifier :=
  let parts := jsSplit '-' identifier
  if parts.length < 2 then
    { role := if (parts.headD "") = "" then "token" else parts.headD ""
      boardId := none
      variant := some "main"
      isBoardLevel := false }
  else if parts.length ≥ 3 ∧ parts[1]? = some "board" then
    let role := parts.headD ""
    let boardNum := (parts[2]?).getD ""
    let boardId := "board-" ++ boardNum
    let variant := if parts.length ≥ 4 then parts.getLastD "" else "main"
    { role := role
      boardId := some boardId
      variant := some variant
      isBoardLevel := isBoardLevelRole role }
  else
    { role := parts.headD ""
      boardId := none
      variant := some (String.intercalate "-" (parts.drop 1))
      isBoardLevel := false }

/-- `formatIdentifier({role, boardId, variant})` from assetIdentifier.js.
The `isBoardLevel` field is never read, so the function takes the three
fields the source destructures. -/
def formatIdentifier (role : String) (boardId : Option String)
    (variant : Option String) : String :=
  if ¬ jsTruthy boardId then
    role ++ "-" ++ jsTemplate variant
  else if isBoardLevelRole role ∨ ¬ jsTruthy variant ∨ variant = some "main" then
    role ++ "-" ++ boardId.getD ""
  else
    role ++ "-" ++ boardId.getD "" ++ "-" ++ variant.getD ""

/-- `formatIdentifier` applied to a parsed identifier object. -/
def formatParsed (a : AssetIdentifier) : String :=
  formatIdentifier a.role a.boardId a.variant

/-- The role/board/variant grid from the spec's round-trip property test. -/
def roundTripRoles : List String := ["token", "cover", "background", "tileLight"]

def roundTripBoardIds : List (Option String) := [none, some "board-1", some "board-2"]

def roundTripVariants : List (Option String) := [none, some "main", some "p1", some "p2"]

/-! ## Association-list maps

JavaScript `Map` objects (`pendingJobs`, `jobStates`, `advanceState`,
`channels`) are embedded as association lists with lookup, overwrite and
delete. -/

/-- `Map.prototype.get`. -/
def alookup (k : String) : List (String × β) → Option β
  | [] => none
  | (k2, v) :: rest => if k2 = k then some v else alookup k rest

/-- `Map.prototype.delete`. -/
def aerase (k : String) (m : List (String × β)) : List (String × β) :=
  m.filter (fun p => p.1 ≠ k)

/-- `Map.prototype.set` (overwrite). -/
def ainsert (k : String) (v : β) (m : List (String × β)) : List (String × β) :=
  (k, v) :: aerase k m

/-! ## Advance Gate — src/routes/packs.js lines 25–104

`advanceState` maps a progress channel to a pending-credit counter and the
parked waiters.  Waiter resolve callbacks are modelled by numeric ids; the
JS `Set` keeps insertion order, so the waiters are a list and
`const [resolve] = entry.waiters` takes the head. -/

structure AdvanceEntry where
  count : Nat
  waiters : List Nat
deriving Repr, DecidableEq

abbrev AdvanceState := List (String × AdvanceEntry)

/-- The default entry `{ count: 0, waiters: new Set() }`. -/
def emptyAdvanceEntry : AdvanceEntry := ⟨0, []⟩

/-- `signalClientAdvance(progressChannel)`: wake the first parked waiter if
any, else bank one credit.  Returns the new state and the woken waiter. -/
def signalClientAdvance (progressChannel : String) (st : AdvanceState) :
    AdvanceState × Option Nat :=
  if progressChannel = "" then (st, none)
  else
    let entry := (alookup progressChannel st).getD emptyAdvanceEntry
    match entry.waiters with
    | w :: rest => (ainsert progressChannel { entry with waiters := rest } st, some w)
    | [] => (ainsert progressChannel { entry with count := entry.count + 1 } st, none)

/-- The synchronous outcome of `waitForClientAdvance`: either the promise
resolves immediately, or a waiter is parked. -/
inductive WaitDecision where
  | resolvedNow (result : Bool)
  | parked (waiter : Nat)
deriving Repr, DecidableEq

/-- `waitForClientAdvance(progressChannel, ...)`, synchronous phase: a falsy
channel resolves `false`; positive credit is consumed
(`Math.max(0, count - 1)`) and resolves `true`; otherwise the waiter is
appended to the channel's waiter set. -/
def waitForClientAdvance (progressChannel : String) (newWaiter : Nat)
    (st : AdvanceState) : AdvanceState × WaitDecision :=
  if progressChannel = "" then (st, .resolvedNow false)
  else
    let entry := (alookup progressChannel st).getD emptyAdvanceEntry
    if entry.count > 0 then
      (ainsert progressChannel { entry with count := entry.count - 1 } st,
        .resolvedNow true)
    else
      (ainsert progressChannel { entry with waiters := entry.waiters ++ [newWaiter] } st,
        .parked newWaiter)

/-- A parked waiter's wake sources: the timer armed by
`waitForClientAdvance` (only when `timeoutMs > 0`), an incoming
`signalClientAdvance`, and the job's abort signal, each at the instant it
would fire. -/
structure ParkedWait where
  timeoutMs : Nat
  signalAt : Option Nat
  abortAt : Option Nat

def optMin : Option Nat → Option Nat → Option Nat
  | none, b => b
  | some x, none => some x
  | some x, some y => some (min x y)

/-- The instant a parked waiter's `finish` runs: the earliest of signal,
abort and (when armed) the timer.  `none` means no wake source ever fires. -/
def waitResolvesAt (w : ParkedWait) : Option Nat :=
  optMin (optMin w.signalAt w.abortAt)
    (if w.timeoutMs > 0 then some w.timeoutMs else none)

/-- `CLIENT_ADVANCE_TIMEOUT_MS = Math.max(0, Number(env || 8000))`;
`none` models the unset environment variable. -/
def CLIENT_ADVANCE_TIMEOUT_MS (envValue : Option Nat) : Nat :=
  max 0 (envValue.getD 8000)

/-- What the per-piece gate did. -/
inductive GateAction where
  | skipped
  | waited (decision : WaitDecision) (timeoutMs : Nat)
deriving Repr, DecidableEq

/-- `maybeWaitForClient` (packs.js lines 1131–1144): no-op when the
advance-gate feature is off, the job is already cancelled, or no client is
attached to the channel (`getClientCount(...) <= 0`); otherwise runs
`waitForClientAdvance` with `CLIENT_ADVANCE_TIMEOUT_MS`. -/
def maybeWaitForClient (enabled : Bool) (cancelled : Bool) (clientCount : Nat)
    (progressChannel : String) (newWaiter : Nat) (timeoutMs : Nat)
    (st : AdvanceState) : AdvanceState × GateAction :=
  if ¬ enabled then (st, .skipped)
  else if cancelled then (st, .skipped)
  else if clientCount ≤ 0 then (st, .skipped)
  else
    let r := waitForClientAdvance progressChannel newWaiter st
    (r.1, .waited r.2 timeoutMs)

/-! ## Data model — src/routes/packs.js registries

`pendingJobs : Map gameId -> { ownerUserId?, controller, progressChannel,
packId, startedAt }` and `jobStates : Map gameId -> JobState`.
`AbortController` identities are numeric ids; `controller.abort()` calls are
reported in handler outputs. -/

/-- One `PendingJob` registry entry. -/
structure PendingJob where
  ownerUserId : Option String := none
  controller : Nat := 0
  progressChannel : Option String := none
  packId : Option String := none
  startedAt : Nat := 0
deriving Repr, DecidableEq

/-- One per-identifier `PieceState` inside a job.  Statuses are the JS
string literals (`"queued"`, `"loading"`, `"ready"`, `"fallback"`,
`"missing"`, `"error"`, `"cancelled"`); an absent field is `none`. -/
structure PieceState where
  id : String := ""
  role : String := ""
  boardId : Option String := none
  variant : Option String := none
  status : Option String := none
  url : Option String := none
  prompt : Option String := none
  reused : Bool := false
deriving Repr, DecidableEq

/-- One per-board asset bucket (`ensureBoardBucket` shape). -/
structure BoardBucket where
  boardPreview : Option String := none
  cover : Option String := none
  background : Option String := none
  tileLight : Option String := none
  tileDark : Option String := none
  tokens : List (String × Option String) := []
deriving Repr, DecidableEq

abbrev BoardAssets := List (String × BoardBucket)

/-- The currently-generating piece recorded in `activePiece`. -/
structure ActivePiece where
  boardId : Option String := none
  role : String := ""
  variant : Option String := none
deriving Repr, DecidableEq

/-- One `jobStates` entry.  States produced by `seedJobState` always carry a
`pieces` object, so `pieces` is a plain association list (the JS guard
`!state?.pieces` never fires on a seeded state: `{}` is truthy). -/
structure JobState where
  ownerUserId : Option String := none
  packId : Option String := none
  renderStyle : Option String := none
  renderDetail : Option String := none
  baseUrl : Option String := none
  manifestUrl : Option String := none
  progressChannel : Option String := none
  resumePackId : Option String := none
  active : Bool := true
  pieces : List (String × PieceState) := []
  boardAssets : BoardAssets := []
  activePiece : Option ActivePiece := none
  updatedAt : Nat := 0
deriving Repr, DecidableEq

/-- The two cross-job shared maps. -/
structure Registries where
  pendingJobs : List (String × PendingJob) := []
  jobStates : List (String × JobState) := []
deriving Repr, DecidableEq

/-- `ProgressEvent` kinds seen in packs.js / progressHub.js. -/
inductive EventKind where
  | start | piece | pieceStart | pieceError | notice | state
  | complete | cancelled | error | rejected | close
deriving Repr, DecidableEq

/-- `serializeJobState(state)` output (the wire-safe snapshot). -/
structure SerializedJobState where
  packId : Option String
  renderStyle : Option String
  renderDetail : Option String
  baseUrl : Option String
  manifestUrl : Option String
  progressChannel : Option String
  resumePackId : Option String
  active : Bool
  updatedAt : Nat
  pieces : List (String × PieceState)
  boardAssets : BoardAssets
  activePiece : Option ActivePiece
  prompts : List (String × String)
deriving Repr, DecidableEq

/-- A progress event as fanned out by `emitProgress`: channel, kind, and
the payload relevant to the claims (the `state` events carry the full
serialized snapshot). -/
inductive Event where
  | state (channel : String) (gameId : Option String) (snapshot : SerializedJobState)
  | plain (channel : String) (kind : EventKind) (gameId : Option String)
deriving Repr, DecidableEq

/-- `s || null`: collapse an empty string to `null`. -/
def orNull (o : Option String) : Option String :=
  match o with
  | some s => if s = "" then none else some s
  | none => none

/-- `collectJobPrompts(state)`: one entry per piece with a truthy prompt,
keyed by the trimmed piece id (or `role-variant` when the id is blank);
later pieces overwrite earlier ones, as JS object assignment does. -/
def collectJobPrompts (state : JobState) : List (String × String) :=
  state.pieces.foldl
    (fun acc kp =>
      let piece := kp.2
      match piece.prompt with
      | none => acc
      | some p =>
        if p = "" then acc
        else
          let key :=
            if jsTrim piece.id ≠ "" then jsTrim piece.id
            else piece.role ++ "-" ++ jsTemplate piece.variant
          ainsert key p acc)
    []

/-- `serializeJobState(state)` (packs.js lines 226–253).  `Date.now()` is
the explicit `now`, used only for the falsy-`updatedAt` fallback. -/
def serializeJobState (now : Nat) (state : JobState) : SerializedJobState :=
  { packId := orNull state.packId
    renderStyle := orNull state.renderStyle
    renderDetail := orNull state.renderDetail
    baseUrl := orNull state.baseUrl
    manifestUrl := orNull state.manifestUrl
    progressChannel :=
      match state.progressChannel with
      | some s => if s ≠ "" ∧ jsTrim s ≠ "" then some (jsTrim s) else none
      | none => none
    resumePackId := orNull state.resumePackId
    active := state.active
    updatedAt := if state.updatedAt = 0 then now else state.updatedAt
    pieces := state.pieces
    boardAssets := state.boardAssets
    activePiece := state.activePiece
    prompts := collectJobPrompts state }

/-- `emitStateSnapshot(gameId)` (packs.js lines 161–168): broadcast a
`state` event with the full serialized snapshot when the looked-up state
has a truthy, non-blank `progressChannel`. -/
def emitStateSnapshot (now : Nat) (gameId : String)
    (jobStates : List (String × JobState)) : List Event :=
  if gameId = "" then []
  else
    match alookup gameId jobStates with
    | none => []
    | some state =>
      match state.progressChannel with
      | none => []
      | some raw =>
        if raw = "" then []
        else
          let channel := jsTrim raw
          if channel = "" then []
          else [.state channel (some gameId) (serializeJobState now state)]

/-- A patch for `updateJobPieceState`: `none` = field absent from the patch
object, `some v` = field present with value `v`. -/
structure PiecePatch where
  status : Option (Option String) := none
  url : Option (Option String) := none
  prompt : Option (Option String) := none
  reused : Option Bool := none
deriving Repr, DecidableEq

/-- JS object spread `{ ...existing, ...patch }` on a piece. -/
def applyPiecePatch (existing : PieceState) (patch : PiecePatch) : PieceState :=
  { existing with
    status := patch.status.getD existing.status
    url := patch.url.getD existing.url
    prompt := patch.prompt.getD existing.prompt
    reused := patch.reused.getD existing.reused }

/-- `updateJobPieceState(gameId, boardId, role, variant, patch)` (packs.js
lines 170–199).  Returns the updated registries and the events broadcast
by the trailing `emitStateSnapshot`. -/
def updateJobPieceState (now : Nat) (gameId : String) (boardId : Option String)
    (role : Option String) (variant : Option String) (patch : PiecePatch)
    (st : Registries) : Registries × List Event :=
  if gameId = "" then (st, [])
  else
    match alookup gameId st.jobStates with
    | none => (st, [])
    | some state =>
      let normalizedRole := jsTrim (role.getD "")
      let normalizedBoardId := if jsTruthy boardId then some (jsTrim (boardId.getD "")) else none
      let normalizedVariant := variant.map (fun v => jsToLower (jsTrim v))
      let pieceKey := formatIdentifier normalizedRole normalizedBoardId
        (if normalizedVariant = some "main" then none else normalizedVariant)
      let existing := (alookup pieceKey state.pieces).getD
        { id := pieceKey, role := normalizedRole, boardId := normalizedBoardId
          variant := normalizedVariant }
      let newPiece :=
        { applyPiecePatch existing patch with
          id := pieceKey, role := normalizedRole, boardId := normalizedBoardId
          variant := normalizedVariant }
      let state2 := { state with
        pieces := ainsert pieceKey newPiece state.pieces
        updatedAt := now }
      let jobStates2 := ainsert gameId state2 st.jobStates
      ({ st with jobStates := jobStates2 }, emitStateSnapshot now gameId jobStates2)

/-- A patch for `markJobState` (`Object.assign(state, patch)`), restricted
to the fields the call sites pass. -/
structure JobPatch where
  active : Option Bool := none
  progressChannel : Option (Option String) := none
  activePiece : Option (Option ActivePiece) := none
  manifestUrl : Option (Option String) := none
  boardAssets : Option BoardAssets := none
deriving Repr, DecidableEq

def applyJobPatch (state : JobState) (patch : JobPatch) : JobState :=
  { state with
    active := patch.active.getD state.active
    progressChannel := patch.progressChannel.getD state.progressChannel
    activePiece := patch.activePiece.getD state.activePiece
    manifestUrl := patch.manifestUrl.getD state.manifestUrl
    boardAssets := patch.boardAssets.getD state.boardAssets }

/-- `markJobState(gameId, patch)` (packs.js lines 201–208). -/
def markJobState (now : Nat) (gameId : String) (patch : JobPatch)
    (st : Registries) : Registries × List Event :=
  if gameId = "" then (st, [])
  else
    match alookup gameId st.jobStates with
    | none => (st, [])
    | some state =>
      let state2 := { applyJobPatch state patch with updatedAt := now }
      let jobStates2 := ainsert gameId state2 st.jobStates
      ({ st with jobStates := jobStates2 }, emitStateSnapshot now gameId jobStates2)

/-- The per-piece step of `markJobStateCancelled`: a `ready` or `fallback`
piece is left alone, every other piece gets `status = "cancelled"`. -/
def cancelPiece (piece : PieceState) : PieceState :=
  if piece.status = some "ready" ∨ piece.status = some "fallback" then piece
  else { piece with status := some "cancelled" }

/-- `markJobStateCancelled(gameId)` (packs.js lines 210–224): cancel every
non-terminal piece, clear `activePiece` and `progressChannel`, set
`active = false`, bump `updatedAt`, then run `emitStateSnapshot` (which
sees the already-cleared channel). -/
def markJobStateCancelled (now : Nat) (gameId : String) (st : Registries) :
    Registries × List Event :=
  if gameId = "" then (st, [])
  else
    match alookup gameId st.jobStates with
    | none => (st, [])
    | some state =>
      let state2 := { state with
        pieces := state.pieces.map (fun kp => (kp.1, cancelPiece kp.2))
        active := false
        activePiece := none
        progressChannel := none
        updatedAt := now }
      let jobStates2 := ainsert gameId state2 st.jobStates
      ({ st with jobStates := jobStates2 }, emitStateSnapshot now gameId jobStates2)

/-- `trackPendingJob(gameId, job)` (packs.js lines 135–141): register under
the stringified game id, defaulting a falsy `startedAt` to `Date.now()`. -/
def trackPendingJob (now : Nat) (gameId : Option String) (job : PendingJob)
    (st : Registries) : Registries :=
  if ¬ jsTruthy gameId then st
  else
    let key := gameId.getD ""
    let started := if job.startedAt = 0 then now else job.startedAt
    { st with pendingJobs :=
        ainsert key ({ job with startedAt := started }) st.pendingJobs }

/-- `clearPendingJob(gameId, controller)` (packs.js lines 143–150): delete
the entry only when it exists and the caller's controller matches (or no
controller was supplied). -/
def clearPendingJob (gameId : Option String) (controller : Option Nat)
    (st : Registries) : Registries :=
  if ¬ jsTruthy gameId then st
  else
    let key := gameId.getD ""
    match alookup key st.pendingJobs with
    | none => st
    | some job =>
      if controller = none ∨ controller = some job.controller then
        { st with pendingJobs := aerase key st.pendingJobs }
      else st

/-- The seed passed to `seedJobState`; `active` is nullable because the
source applies `seed?.active ?? true`. -/
structure JobSeed where
  ownerUserId : Option String := none
  packId : Option String := none
  renderStyle : Option String := none
  renderDetail : Option String := none
  baseUrl : Option String := none
  manifestUrl : Option String := none
  progressChannel : Option String := none
  active : Option Bool := none
  pieces : List (String × PieceState) := []
  boardAssets : BoardAssets := []
  activePiece : Option ActivePiece := none
deriving Repr, DecidableEq

/-- `seedJobState(gameId, seed)` (packs.js lines 152–159). -/
def seedJobState (now : Nat) (gameId : Option String) (seed : JobSeed)
    (st : Registries) : Registries :=
  if ¬ jsTruthy gameId then st
  else
    let key := gameId.getD ""
    let seeded : JobState :=
      { ownerUserId := seed.ownerUserId
        packId := seed.packId
        renderStyle := seed.renderStyle
        renderDetail := seed.renderDetail
        baseUrl := seed.baseUrl
        manifestUrl := seed.manifestUrl
        progressChannel := seed.progressChannel
        resumePackId := none
        active := seed.active.getD true
        pieces := seed.pieces
        boardAssets := seed.boardAssets
        activePiece := seed.activePiece
        updatedAt := now }
    { st with jobStates := ainsert key seeded st.jobStates }

/-! ## HTTP handlers — src/routes/packs.js -/

/-- `sanitizeUserId(value)` (packs.js lines 106–112). -/
def sanitizeUserId (value : Option String) : Option String :=
  let raw := value.getD ""
  let trimmed := jsTrim raw
  if trimmed = "" then none
  else
    let safe := String.mk (trimmed.data.filter fun c => c.isAlphanum ∨ c = '_' ∨ c = '-')
    if safe = "" then none else some safe

/-- `assertOwnerOr403(req, res, state)` as a predicate: `true` means the
request passes (owner enforcement disabled, or the sanitized request user
matches the owner).  `requestUserId` is the output of `getRequestUserId`. -/
def ownerCheckPasses (requestUserId : Option String) (state : Option JobState) : Bool :=
  match sanitizeUserId (state.bind JobState.ownerUserId) with
  | none => true
  | some owner =>
    match requestUserId with
    | none => false
    | some u => u = owner

/-- Result of `POST /packs/jobs/cancel`. -/
structure CancelResult where
  status : Nat
  cancelled : Option Bool
  registries : Registries
  aborted : List Nat
  events : List Event
deriving Repr, DecidableEq

/-- `router.post('/jobs/cancel')` (packs.js lines 610–638): 400 without a
game id; 403 on owner mismatch; `{cancelled:false}` with no mutation when
no pending job exists; otherwise delete the pending job, mark the job
state cancelled, abort the controller, and emit `cancelled`/close on the
job's channel. -/
def cancelJobHandler (now : Nat) (gameId : Option String)
    (requestUserId : Option String) (st : Registries) : CancelResult :=
  if ¬ jsTruthy gameId then ⟨400, none, st, [], []⟩
  else
    let key := gameId.getD ""
    let stateOpt := alookup key st.jobStates
    if stateOpt.isSome ∧ ¬ ownerCheckPasses requestUserId stateOpt then
      ⟨403, none, st, [], []⟩
    else
      match alookup key st.pendingJobs with
      | none => ⟨200, some false, st, [], []⟩
      | some job =>
        let st1 := { st with pendingJobs := aerase key st.pendingJobs }
        let r2 := markJobStateCancelled now key st1
        let chEvents :=
          if jsTruthy job.progressChannel then
            [Event.plain (job.progressChannel.getD "") .cancelled (some key),
             Event.plain (job.progressChannel.getD "") .close none]
          else []
        ⟨200, some true, r2.1, [job.controller], r2.2 ++ chEvents⟩

/-- Result of `GET /packs/jobs/status/:gameId`. -/
structure StatusResult where
  status : Nat
  active : Option Bool := none
  progressChannel : Option String := none
  packId : Option String := none
  startedAt : Option Nat := none
deriving Repr, DecidableEq

/-- `router.get('/jobs/status/:gameId')` (packs.js lines 671–700). -/
def jobStatusHandler (gameId : Option String) (requestUserId : Option String)
    (st : Registries) : StatusResult :=
  if ¬ jsTruthy gameId then { status := 400 }
  else
    let key := gameId.getD ""
    let stateOpt := alookup key st.jobStates
    if stateOpt.isSome ∧ ¬ ownerCheckPasses requestUserId stateOpt then
      { status := 403 }
    else
      match alookup key st.pendingJobs with
      | none => { status := 200, active := some false }
      | some job =>
        { status := 200, active := some true
          progressChannel := job.progressChannel
          packId := job.packId
          startedAt := some job.startedAt }

/-- `router.get('/state/:gameId')` (packs.js lines 702–721): the response
body's `state` field (`null` when no job state exists). -/
def jobStateHandler (now : Nat) (gameId : Option String)
    (requestUserId : Option String) (st : Registries) :
    Nat × Option SerializedJobState :=
  if ¬ jsTruthy gameId then (400, none)
  else
    let key := gameId.getD ""
    let stateOpt := alookup key st.jobStates
    if stateOpt.isSome ∧ ¬ ownerCheckPasses requestUserId stateOpt then
      (403, none)
    else
      (200, stateOpt.map (serializeJobState now))

/-- `shouldUseOpenAI(preference, apiKey)` from src/services/aiSvgGenerator.js
(`envProviderOpenAI` models `AI_SVG_PROVIDER === 'openai'`). -/
def shouldUseOpenAI (preference : String) (key : Option String)
    (envProviderOpenAI : Bool) : Bool :=
  match key with
  | none => false
  | some _ =>
    let pref := jsToLower (if preference = "" then "auto" else preference)
    if pref = "local" then false
    else if pref = "openai" then true
    else envProviderOpenAI

/-- `isOpenAiSvgAvailable` forwards to `shouldUseOpenAI`. -/
def isOpenAiSvgAvailable (preference : String) (key : Option String)
    (envProviderOpenAI : Bool) : Bool :=
  shouldUseOpenAI preference key envProviderOpenAI

/-- The request fields of `POST /packs` that decide the registry phase.
`valid` is the outcome of `validateCreatePackPayload` (Joi). -/
structure CreateReq where
  valid : Bool := true
  userId : Option String := none
  gameId : Option String := none
  renderStyle : String := "vector"
  openaiKey : Option String := none
  vectorProvider : String := "auto"
  assetGenerationLocation : Option String := none
  progressChannel : Option String := none
deriving Repr, DecidableEq

/-- `openAiKey`: trimmed, or `null` when blank (packs.js lines 792–795). -/
def openAiKeyOf (req : CreateReq) : Option String :=
  match req.openaiKey with
  | some s => if jsTrim s = "" then none else some (jsTrim s)
  | none => none

/-- `normalizedLocation` (packs.js lines 788–791). -/
def normalizedLocationOf (req : CreateReq) : Option String :=
  match req.assetGenerationLocation with
  | some s => if jsTrim s = "" then none else some (jsToLower (jsTrim s))
  | none => none

/-- `effectiveVectorProvider` (packs.js lines 787, 796–798). -/
def effectiveVectorProviderOf (req : CreateReq) : String :=
  if req.renderStyle = "vector" ∧ normalizedLocationOf req = some "local" then "local"
  else req.vectorProvider

/-- `progressChannelResolved` (packs.js lines 888–891); `freshChannel`
models the `nanoid(12)` fallback. -/
def progressChannelResolvedOf (req : CreateReq) (freshChannel : String) : String :=
  match req.progressChannel with
  | some s => if jsTrim s = "" then freshChannel else jsTrim s
  | none => freshChannel

/-- How the registry phase of `POST /packs` ended. -/
inductive CreateOutcome where
  | badRequest
  | conflict
  | started
deriving Repr, DecidableEq

structure CreateStepResult where
  outcome : CreateOutcome
  registries : Registries
  events : List Event
deriving Repr, DecidableEq

/-- The registry phase of `router.post('/')` (packs.js lines 758–1589):
validation and provider guards (400), the pending-job conflict check
(409, registries untouched), then `trackPendingJob` and `seedJobState` —
both skipped entirely when the request carries no truthy game id.  The
elided generation work that follows touches the registries only through
`updateJobPieceState` / `markJobState` / `markJobStateCancelled` /
`clearPendingJob`, all of which are no-ops for a falsy game id.
`seed` stands for the `initialPieces`/`initialBoardAssets` computation. -/
def createPackRegistryPhase (now : Nat) (req : CreateReq) (controller : Nat)
    (packId : String) (freshChannel : String) (envProviderOpenAI : Bool)
    (seed : JobSeed) (st : Registries) : CreateStepResult :=
  if ¬ req.valid then ⟨.badRequest, st, []⟩
  else
    let openAiKey := openAiKeyOf req
    let effectiveVectorProvider := effectiveVectorProviderOf req
    let providerPreference :=
      if req.renderStyle = "vector" then effectiveVectorProvider else "auto"
    let willUseOpenAI := req.renderStyle = "vector" ∧
      isOpenAiSvgAvailable providerPreference openAiKey envProviderOpenAI
    let channel := progressChannelResolvedOf req freshChannel
    let gameIdOpt := if jsTruthy req.gameId then req.gameId else none
    let noticeEvents :=
      if req.renderStyle = "vector" ∧ normalizedLocationOf req = some "remote" ∧
          ¬ willUseOpenAI ∧ jsTruthy req.gameId then
        [Event.plain channel .notice req.gameId]
      else []
    if req.renderStyle = "vector" ∧ effectiveVectorProvider = "openai" ∧
        ¬ isOpenAiSvgAvailable "openai" openAiKey envProviderOpenAI then
      ⟨.badRequest, st, noticeEvents ++ [Event.plain channel .error gameIdOpt]⟩
    else if req.renderStyle = "photoreal" ∧ openAiKey = none then
      ⟨.badRequest, st, noticeEvents ++ [Event.plain channel .error gameIdOpt]⟩
    else if jsTruthy req.gameId ∧ (alookup (req.gameId.getD "") st.pendingJobs).isSome then
      ⟨.conflict, st,
        noticeEvents ++ [Event.plain channel .rejected gameIdOpt,
                         Event.plain channel .close none]⟩
    else
      let startEvents := noticeEvents ++ [Event.plain channel .start gameIdOpt]
      let st1 :=
        if jsTruthy req.gameId then
          trackPendingJob now req.gameId
            { ownerUserId := sanitizeUserId req.userId
              controller := controller
              progressChannel := some channel
              packId := some packId
              startedAt := 0 } st
        else st
      let st2 :=
        if jsTruthy req.gameId then seedJobState now req.gameId seed st1 else st1
      let seedEvents :=
        if jsTruthy req.gameId then
          emitStateSnapshot now (req.gameId.getD "") st2.jobStates
        else []
      ⟨.started, st2, startEvents ++ seedEvents⟩

/-! ## SSE progress hub — src/unnamed/part_004 (progressHub.js, SSE revision)

This is the only revision of the progress hub with a replay buffer.
Clients are numeric ids; an emitted event is `(kind, data)` with the
payload abstracted to a numeric id.  Heartbeats, write failures and the
`res.on('close')` eviction are time/transport behaviour and are elided;
every modelled write succeeds. -/

def BUFFER_LIMIT : Nat := 200

structure SseChannel where
  clients : List Nat := []
  buffer : List (String × Nat) := []
  abort : Option Nat := none
deriving Repr, DecidableEq

structure SseHub where
  channels : List (String × SseChannel) := []
deriving Repr, DecidableEq

/-- `ensureChannel(channelId)`. -/
def ensureChannel (hub : SseHub) (channelId : String) : SseHub × SseChannel :=
  match alookup channelId hub.channels with
  | some entry => (hub, entry)
  | none =>
    let entry : SseChannel := {}
    (⟨ainsert channelId entry hub.channels⟩, entry)

structure SseEmitResult where
  hub : SseHub
  writes : List (Nat × String × Nat)
  aborted : List Nat
deriving Repr, DecidableEq

/-- `emitProgress(channelId, event, data)` (part_004 lines 59–83): append
to the bounded buffer (shift when over `BUFFER_LIMIT`), write to every
client, fire the attached abort on a `cancelled` event — and, when no
client is attached, delete the whole channel entry (buffer included). -/
def sseEmitProgress (channelId : String) (event : String) (data : Nat)
    (hub : SseHub) : SseEmitResult :=
  if channelId = "" then ⟨hub, [], []⟩
  else
    let entry := (ensureChannel hub channelId).2
    let hub1 := (ensureChannel hub channelId).1
    let aborted := if event = "cancelled" then entry.abort.toList else []
    let buffer1 := entry.buffer ++ [(event, data)]
    let buffer2 := if buffer1.length > BUFFER_LIMIT then buffer1.tail else buffer1
    let writes := entry.clients.map (fun c => (c, event, data))
    if entry.clients.length = 0 then
      ⟨⟨aerase channelId hub1.channels⟩, writes, aborted⟩
    else
      ⟨⟨ainsert channelId { entry with buffer := buffer2 } hub1.channels⟩,
        writes, aborted⟩

/-- `registerClient(channelId, res)` (part_004 lines 18–51): attach the
client and replay the buffered backlog to it, oldest first.  Returns the
new hub and the replayed events in replay order. -/
def registerClient (channelId : String) (client : Nat) (hub : SseHub) :
    SseHub × List (String × Nat) :=
  let entry := (ensureChannel hub channelId).2
  let hub1 := (ensureChannel hub channelId).1
  (⟨ainsert channelId { entry with clients := entry.clients ++ [client] }
      hub1.channels⟩,
    entry.buffer)

/-- `attachAbortController(channelId, controller)` (part_004 lines 53–57). -/
def sseAttachAbortController (channelId : String) (controller : Nat)
    (hub : SseHub) : SseHub :=
  if channelId = "" then hub
  else
    let entry := (ensureChannel hub channelId).2
    let hub1 := (ensureChannel hub channelId).1
    ⟨ainsert channelId { entry with abort := some controller } hub1.channels⟩

/-- `closeChannel(channelId)` (part_004 lines 85–97). -/
def sseCloseChannel (channelId : String) (hub : SseHub) : SseHub :=
  if channelId = "" then hub
  else
    match alookup channelId hub.channels with
    | none => hub
    | some _ => ⟨aerase channelId hub.channels⟩

/-! ## Retention cleanup — `cleanupOldPacksForGame` (packs.js lines 289–346)

The filesystem view is a directory listing with each pack's sidecar
metadata (`readPackMeta` result) attached; `rmOk` models whether the
`fs.rm` of a given pack succeeds.  The function's observable effect is the
ordered list of deletion attempts `(name, succeeded)`; the caller never
sees a failure (the loop logs and continues, the whole body is wrapped in
a `try`). -/

structure PackMeta where
  gameId : Option String := none
  createdAt : Option Nat := none
deriving Repr, DecidableEq

structure PackDirEnt where
  name : String
  isDir : Bool := true
  meta : Option PackMeta := none
deriving Repr, DecidableEq

/-- `normalizeGameId = (value) => String(value || '').trim()`. -/
def normalizeGameId (value : Option String) : String :=
  jsTrim (value.getD "")

/-- `parseTimestampFromName(name)`: the number after the first `_`, else 0
(NaN collapses to 0 through the `Number.isFinite` guard). -/
def parseTimestampFromName (name : String) : Nat :=
  let parts := jsSplit '_' name
  if parts.length > 1 then ((parts[1]?).bind jsNumberNat).getD 0 else 0

structure GamePackInfo where
  name : String
  createdAt : Nat
deriving Repr, DecidableEq

/-- The `gamePacksInfo` accumulation: pack-named directories whose sidecar
game id matches the target, with `createdAt` from the metadata when it is
a positive finite number, else parsed from the name. -/
def gamePacksInfoOf (targetGameId : String) (entries : List PackDirEnt) :
    List GamePackInfo :=
  entries.filterMap fun e =>
    if ¬ e.isDir then none
    else if ¬ strStartsWith e.name "pack_" then none
    else
      let metaGameId := normalizeGameId (e.meta.bind PackMeta.gameId)
      if metaGameId = "" ∨ metaGameId ≠ targetGameId then none
      else
        let createdAt :=
          match e.meta.bind PackMeta.createdAt with
          | some c => if c > 0 then c else parseTimestampFromName e.name
          | none => parseTimestampFromName e.name
        some ⟨e.name, createdAt⟩

/-- Stable insertion into a descending-by-`createdAt` list (ties keep
earlier elements first, as V8's stable sort does). -/
def insertDesc (x : GamePackInfo) : List GamePackInfo → List GamePackInfo
  | [] => [x]
  | y :: ys => if x.createdAt ≤ y.createdAt then y :: insertDesc x ys else x :: y :: ys

/-- `gamePacksInfo.sort((a, b) => b.createdAt - a.createdAt)`. -/
def sortByCreatedAtDesc : List GamePackInfo → List GamePackInfo
  | [] => []
  | x :: xs => insertDesc x (sortByCreatedAtDesc xs)

/-- `keepSet`: the preserved pack ids, `filter(Boolean)`. -/
def keepSetOf (keepPackIds : List String) : List String :=
  keepPackIds.filter (fun s => s ≠ "")

/-- The deletion loop over `toDelete`: preserved names are skipped, every
other name is attempted, and a failed `fs.rm` (caught and logged) never
stops the loop. -/
def runDeletes (rmOk : String → Bool) (keepSet : List String) :
    List GamePackInfo → List (String × Bool)
  | [] => []
  | i :: rest =>
    if keepSet.contains i.name then runDeletes rmOk keepSet rest
    else (i.name, rmOk i.name) :: runDeletes rmOk keepSet rest

/-- `cleanupOldPacksForGame(gameId, packsDir, keepLatest, keepPackIds)`:
the ordered deletion attempts it performs. -/
def cleanupOldPacksForGame (gameId : Option String) (entries : List PackDirEnt)
    (keepLatest : Nat) (keepPackIds : List String) (rmOk : String → Bool) :
    List (String × Bool) :=
  if ¬ jsTruthy gameId then []
  else
    let keepSet := keepSetOf keepPackIds
    let targetGameId := normalizeGameId gameId
    if targetGameId = "" then []
    else
      let sorted := sortByCreatedAtDesc (gamePacksInfoOf targetGameId entries)
      if sorted.length > keepLatest then
        runDeletes rmOk keepSet (sorted.drop keepLatest)
      else []

/-- The channel `emitStateSnapshot` would broadcast on: the state's
`progressChannel` when truthy and non-blank after trimming, else `none`. -/
def trimmedChannel (o : Option String) : Option String :=
  match o with
  | none => none
  | some s =>
    if s = "" then none
    else if jsTrim s = "" then none
    else some (jsTrim s)

/-- Fold `emitProgress` over a list of `(event, data)` pairs on one
channel. -/
def sseEmitAll (channelId : String) (events : List (String × Nat))
    (hub : SseHub) : SseHub :=
  events.foldl (fun h ev => (sseEmitProgress channelId ev.1 ev.2 h).hub) hub

/-- A six-pack directory listing exercising the retention cleanup: five
packs of game `g1` with increasing creation times and one pack of `g2`. -/
def c7Entries : List PackDirEnt :=
  [⟨"pack_100_a", true, some ⟨some "g1", some 100⟩⟩,
   ⟨"pack_200_b", true, some ⟨some "g1", some 200⟩⟩,
   ⟨"pack_300_c", true, some ⟨some "g1", some 300⟩⟩,
   ⟨"pack_400_d", true, some ⟨some "g1", some 400⟩⟩,
   ⟨"pack_500_e", true, some ⟨some "g1", some 500⟩⟩,
   ⟨"pack_250_z", true, some ⟨some "g2", some 250⟩⟩]

/-! ## Map lemmas -/

theorem alookup_ainsert_self (k : String) (v : β) (m : List (String × β)) :
    alookup k (ainsert k v m) = some v := by
  simp [ainsert, alookup]

theorem alookup_aerase (k k2 : String) (m : List (String × β)) :
    alookup k (aerase k2 m) = if k2 = k then none else alookup k m := by
  induction m with
  | nil => simp [aerase, alookup]
  | cons p rest ih =>
    obtain ⟨pk, pv⟩ := p
    by_cases h1 : pk = k2
    · have hstep : aerase k2 ((pk, pv) :: rest) = aerase k2 rest := by
        simp [aerase, h1]
      rw [hstep, ih]
      by_cases h2 : k2 = k
      · simp [h2]
      · have hpk : ¬ pk = k := by rw [h1]; exact h2
        simp [h2, alookup, hpk]
    · have hstep : aerase k2 ((pk, pv) :: rest) = (pk, pv) :: aerase k2 rest := by
        simp [aerase, h1]
      rw [hstep]
      by_cases h2 : pk = k
      · have hk2 : ¬ k2 = k := by
          intro hh
          exact h1 (h2.trans hh.symm)
        simp [alookup, h2, hk2]
      · simp [alookup, h2, ih]

theorem alookup_ainsert (k k2 : String) (v : β) (m : List (String × β)) :
    alookup k (ainsert k2 v m) = if k2 = k then some v else alookup k m := by
  by_cases h : k2 = k <;> simp [ainsert, alookup, h, alookup_aerase]

/-! ## Claim theorems -/

/-- C4: for every identifier string `s` produced by `formatIdentifier` from
a triple with role in \x7btoken, cover, background, tileLight\x7d, boardId in
\x7bnull, "board-1", "board-2"\x7d and variant in \x7bnull, "main", "p1", "p2"\x7d,
`formatIdentifier (parseIdentifier s) = s`. -/
theorem c4_format_parse_round_trip :
    ∀ role ∈ roundTripRoles, ∀ boardId ∈ roundTripBoardIds,
      ∀ variant ∈ roundTripVariants,
        formatParsed (parseIdentifier (formatIdentifier role boardId variant)) =
          formatIdentifier role boardId variant := by
  decide

/-- Witness for C4 at the concrete triple `(token, board-1, p1)`. -/
theorem c4_round_trip_witness :
    formatParsed (parseIdentifier (formatIdentifier "token" (some "board-1") (some "p1"))) =
      formatIdentifier "token" (some "board-1") (some "p1") :=
  c4_format_parse_round_trip "token" (by decide) (some "board-1") (by decide)
    (some "p1") (by decide)

/-- C5: on a non-empty channel, `signalClientAdvance` wakes exactly the
first parked waiter when one exists and otherwise banks one credit;
`waitForClientAdvance` with positive credit consumes one credit and
resolves `true` immediately; and a signal issued before the corresponding
await is never lost — the await resolves `true` and the entry returns to
its original value. -/
theorem c5_advance_gate_semantics (ch : String) (hch : ch ≠ "")
    (st : AdvanceState) (entry : AdvanceEntry)
    (he : (alookup ch st).getD emptyAdvanceEntry = entry) :
    (∀ w rest, entry.waiters = w :: rest →
        (signalClientAdvance ch st).2 = some w ∧
        alookup ch (signalClientAdvance ch st).1 =
          some { count := entry.count, waiters := rest }) ∧
    (entry.waiters = [] →
        (signalClientAdvance ch st).2 = none ∧
        alookup ch (signalClientAdvance ch st).1 =
          some { count := entry.count + 1, waiters := [] }) ∧
    (∀ wid, 0 < entry.count →
        (waitForClientAdvance ch wid st).2 = .resolvedNow true ∧
        alookup ch (waitForClientAdvance ch wid st).1 =
          some { count := entry.count - 1, waiters := entry.waiters }) ∧
    (∀ wid, entry.waiters = [] →
        (waitForClientAdvance ch wid (signalClientAdvance ch st).1).2 =
          .resolvedNow true ∧
        alookup ch (waitForClientAdvance ch wid (signalClientAdvance ch st).1).1 =
          some entry) := by
  refine ⟨?_, ?_, ?_, ?_⟩
  · intro w rest hw
    have h1 : signalClientAdvance ch st =
        (ainsert ch { entry with waiters := rest } st, some w) := by
      simp only [signalClientAdvance, if_neg hch, he, hw]
    rw [h1]
    exact ⟨rfl, alookup_ainsert_self ch _ st⟩
  · intro hw
    have h1 : signalClientAdvance ch st =
        (ainsert ch { entry with count := entry.count + 1 } st, none) := by
      simp only [signalClientAdvance, if_neg hch, he, hw]
    rw [h1]
    refine ⟨rfl, ?_⟩
    rw [alookup_ainsert_self]
    rw [← hw]
  · intro wid hc
    have h1 : waitForClientAdvance ch wid st =
        (ainsert ch { entry with count := entry.count - 1 } st, .resolvedNow true) := by
      simp only [waitForClientAdvance, if_neg hch, he, if_pos hc]
    rw [h1]
    exact ⟨rfl, alookup_ainsert_self ch _ st⟩
  · intro wid hw
    have hsig : signalClientAdvance ch st =
        (ainsert ch { entry with count := entry.count + 1 } st, none) := by
      simp only [signalClientAdvance, if_neg hch, he, hw]
    rw [hsig]
    have hlook : (alookup ch (ainsert ch { entry with count := entry.count + 1 } st)).getD
        emptyAdvanceEntry = { entry with count := entry.count + 1 } := by
      rw [alookup_ainsert_self]
      rfl
    have hcpos : 0 < ({ entry with count := entry.count + 1 } : AdvanceEntry).count :=
      Nat.succ_pos _
    have h2 : waitForClientAdvance ch wid
        (ainsert ch { entry with count := entry.count + 1 } st) =
        (ainsert ch { entry with count := entry.count + 1 - 1 }
          (ainsert ch { entry with count := entry.count + 1 } st),
         .resolvedNow true) := by
      simp only [waitForClientAdvance, if_neg hch, hlook, if_pos hcpos]
    rw [h2]
    refine ⟨rfl, ?_⟩
    rw [alookup_ainsert_self]
    have hrec : ({ entry with count := entry.count + 1 - 1 } : AdvanceEntry) = entry := by
      cases entry
      simp
    rw [hrec]

/-- Witness for C5 on channel `"chan"` with the empty advance state. -/
theorem c5_advance_gate_witness :
    (signalClientAdvance "chan" []).2 = none ∧
    alookup "chan" (signalClientAdvance "chan" []).1 =
      some { count := 1, waiters := [] } ∧
    (waitForClientAdvance "chan" 7 (signalClientAdvance "chan" []).1).2 =
      WaitDecision.resolvedNow true := by
  have h := c5_advance_gate_semantics "chan" (by decide) [] emptyAdvanceEntry rfl
  exact ⟨(h.2.1 rfl).1, (h.2.1 rfl).2, (h.2.2.2 7 rfl).1⟩

/-- C6: a job armed to await client advance never blocks forever at the
gate: with zero live listeners `maybeWaitForClient` skips the wait
entirely, and a parked wait armed with the default
`CLIENT_ADVANCE_TIMEOUT_MS` always resolves — at the earliest of the next
signal, the job's abort, and the timeout, in particular within the
timeout bound. -/
theorem c6_gate_liveness :
    (∀ (enabled cancelled : Bool) (ch : String) (wid timeoutMs : Nat)
        (st : AdvanceState),
        maybeWaitForClient enabled cancelled 0 ch wid timeoutMs st = (st, .skipped)) ∧
    (∀ w : ParkedWait, w.timeoutMs = CLIENT_ADVANCE_TIMEOUT_MS none →
        ∃ t, waitResolvesAt w = some t ∧ t ≤ CLIENT_ADVANCE_TIMEOUT_MS none ∧
          (∀ s, w.signalAt = some s → t ≤ s) ∧
          (∀ a, w.abortAt = some a → t ≤ a) ∧
          (w.signalAt = some t ∨ w.abortAt = some t ∨ t = w.timeoutMs)) := by
  constructor
  · intro enabled cancelled ch wid timeoutMs st
    cases enabled <;> cases cancelled <;> simp [maybeWaitForClient]
  · intro w hT
    have hval : CLIENT_ADVANCE_TIMEOUT_MS none = 8000 := rfl
    have hpos : 0 < w.timeoutMs := by
      rw [hT, hval]
      decide
    rcases hs : w.signalAt with _ | s <;> rcases ha : w.abortAt with _ | a
    · refine ⟨w.timeoutMs, ?_, le_of_eq hT, ?_, ?_, Or.inr (Or.inr rfl)⟩
      · simp [waitResolvesAt, hs, ha, optMin, if_pos hpos]
      · intro s2 hs2
        exact absurd hs2 (by simp)
      · intro a2 ha2
        exact absurd ha2 (by simp)
    · refine ⟨min a w.timeoutMs, ?_, ?_, ?_, ?_, ?_⟩
      · simp [waitResolvesAt, hs, ha, optMin, if_pos hpos]
      · exact le_trans (min_le_right _ _) (le_of_eq hT)
      · intro s2 hs2
        exact absurd hs2 (by simp)
      · intro a2 ha2
        cases ha2
        exact min_le_left _ _
      · rcases le_total a w.timeoutMs with h | h
        · exact Or.inr (Or.inl (congrArg some (min_eq_left h).symm))
        · exact Or.inr (Or.inr (min_eq_right h))
    · refine ⟨min s w.timeoutMs, ?_, ?_, ?_, ?_, ?_⟩
      · simp [waitResolvesAt, hs, ha, optMin, if_pos hpos]
      · exact le_trans (min_le_right _ _) (le_of_eq hT)
      · intro s2 hs2
        cases hs2
        exact min_le_left _ _
      · intro a2 ha2
        exact absurd ha2 (by simp)
      · rcases le_total s w.timeoutMs with h | h
        · exact Or.inl (congrArg some (min_eq_left h).symm)
        · exact Or.inr (Or.inr (min_eq_right h))
    · refine ⟨min (min s a) w.timeoutMs, ?_, ?_, ?_, ?_, ?_⟩
      · simp [waitResolvesAt, hs, ha, optMin, if_pos hpos]
      · exact le_trans (min_le_right _ _) (le_of_eq hT)
      · intro s2 hs2
        cases hs2
        exact le_trans (min_le_left _ _) (min_le_left _ _)
      · intro a2 ha2
        cases ha2
        exact le_trans (min_le_left _ _) (min_le_right _ _)
      · rcases le_total (min s a) w.timeoutMs with h | h
        · rcases le_total s a with h2 | h2
          · refine Or.inl (congrArg some ?_)
            rw [min_eq_left h, min_eq_left h2]
          · refine Or.inr (Or.inl (congrArg some ?_))
            rw [min_eq_left h, min_eq_right h2]
        · exact Or.inr (Or.inr (min_eq_right h))

/-- Witness for C6: the gate skips with zero listeners, and a parked wait
with a signal due at 3000ms resolves. -/
theorem c6_gate_liveness_witness :
    maybeWaitForClient true false 0 "chan" 1 8000 [] = ([], .skipped) ∧
    ∃ t, waitResolvesAt ⟨8000, some 3000, none⟩ = some t ∧
      t ≤ CLIENT_ADVANCE_TIMEOUT_MS none ∧
      (∀ s, (some 3000 : Option Nat) = some s → t ≤ s) ∧
      (∀ a, (none : Option Nat) = some a → t ≤ a) ∧
      ((some 3000 : Option Nat) = some t ∨ (none : Option Nat) = some t ∨ t = 8000) :=
  ⟨c6_gate_liveness.1 true false "chan" 1 8000 [],
   c6_gate_liveness.2 ⟨8000, some 3000, none⟩ rfl⟩

theorem cancelPiece_url (p : PieceState) : (cancelPiece p).url = p.url := by
  unfold cancelPiece
  split <;> rfl

/-- C2: after `markJobStateCancelled(gameId)` on a seeded job state, every
piece whose status was not terminal (`ready`/`fallback`) has status
`cancelled`, `activePiece` and `progressChannel` are cleared, `active` is
false — and every `ready` or `fallback` piece keeps its previous status
and url unchanged (no piece's url is ever touched). -/
theorem c2_mark_cancelled_semantics (now : Nat) (gameId : String)
    (hg : ¬ gameId = "") (st : Registries) (state : JobState)
    (hs : alookup gameId st.jobStates = some state) :
    ∃ state2,
      alookup gameId (markJobStateCancelled now gameId st).1.jobStates = some state2 ∧
      state2.active = false ∧
      state2.activePiece = none ∧
      state2.progressChannel = none ∧
      state2.updatedAt = now ∧
      state2.pieces = state.pieces.map (fun kp => (kp.1, cancelPiece kp.2)) ∧
      (∀ key piece, (key, piece) ∈ state.pieces →
        (¬ (piece.status = some "ready" ∨ piece.status = some "fallback") →
          (key, { piece with status := some "cancelled" }) ∈ state2.pieces) ∧
        ((piece.status = some "ready" ∨ piece.status = some "fallback") →
          (key, piece) ∈ state2.pieces)) ∧
      (∀ key piece2, (key, piece2) ∈ state2.pieces →
        ∃ piece, (key, piece) ∈ state.pieces ∧ piece2 = cancelPiece piece ∧
          piece2.url = piece.url) := by
  have hrun : markJobStateCancelled now gameId st =
      (let state2 : JobState :=
        { state with
          pieces := state.pieces.map (fun kp => (kp.1, cancelPiece kp.2))
          active := false
          activePiece := none
          progressChannel := none
          updatedAt := now }
       let jobStates2 := ainsert gameId state2 st.jobStates
       ({ st with jobStates := jobStates2 }, emitStateSnapshot now gameId jobStates2)) := by
    simp only [markJobStateCancelled, if_neg hg, hs]
  refine ⟨{ state with
      pieces := state.pieces.map (fun kp => (kp.1, cancelPiece kp.2))
      active := false
      activePiece := none
      progressChannel := none
      updatedAt := now }, ?_, rfl, rfl, rfl, rfl, rfl, ?_, ?_⟩
  · rw [hrun]
    exact alookup_ainsert_self gameId _ st.jobStates
  · intro key piece hmem
    constructor
    · intro hterm
      have : (key, cancelPiece piece) ∈
          state.pieces.map (fun kp => (kp.1, cancelPiece kp.2)) :=
        List.mem_map_of_mem _ hmem
      have hcp : cancelPiece piece = { piece with status := some "cancelled" } := by
        unfold cancelPiece
        rw [if_neg hterm]
      rw [hcp] at this
      exact this
    · intro hterm
      have : (key, cancelPiece piece) ∈
          state.pieces.map (fun kp => (kp.1, cancelPiece kp.2)) :=
        List.mem_map_of_mem _ hmem
      have hcp : cancelPiece piece = piece := by
        unfold cancelPiece
        rw [if_pos hterm]
      rw [hcp] at this
      exact this
  · intro key piece2 hmem
    rcases List.mem_map.mp hmem with ⟨kp, hkp, heq⟩
    have hk : kp.1 = key := congrArg Prod.fst heq
    have hp : cancelPiece kp.2 = piece2 := congrArg Prod.snd heq
    refine ⟨kp.2, ?_, hp.symm, ?_⟩
    · rw [← hk, Prod.mk.eta]
      exact hkp
    · rw [← hp]
      exact cancelPiece_url kp.2

/-- Witness for C2: a job with one `ready` piece (with a url) and one
`queued` piece; cancellation keeps the first and cancels the second. -/
theorem c2_mark_cancelled_witness :
    ∃ state2,
      alookup "g1" (markJobStateCancelled 100 "g1"
          ⟨[], [("g1",
            { progressChannel := some "chan-1"
              active := true
              pieces :=
                [("token-board-1-p1",
                  { id := "token-board-1-p1", role := "token"
                    status := some "ready", url := some "/skins/pack_1/a.svg" }),
                 ("token-board-1-p2",
                  { id := "token-board-1-p2", role := "token"
                    status := some "queued" })] })]⟩).1.jobStates = some state2 ∧
      state2.active = false ∧
      state2.activePiece = none ∧
      state2.progressChannel = none ∧
      state2.updatedAt = 100 ∧
      state2.pieces =
        [("token-board-1-p1",
          { id := "token-board-1-p1", role := "token"
            status := some "ready", url := some "/skins/pack_1/a.svg" }),
         ("token-board-1-p2",
          { id := "token-board-1-p2", role := "token"
            status := some "queued" })].map (fun kp => (kp.1, cancelPiece kp.2)) ∧
      (∀ key piece, (key, piece) ∈
          [("token-board-1-p1",
            ({ id := "token-board-1-p1", role := "token"
               status := some "ready", url := some "/skins/pack_1/a.svg" } : PieceState)),
           ("token-board-1-p2",
            { id := "token-board-1-p2", role := "token"
              status := some "queued" })] →
        (¬ (piece.status = some "ready" ∨ piece.status = some "fallback") →
          (key, { piece with status := some "cancelled" }) ∈ state2.pieces) ∧
        ((piece.status = some "ready" ∨ piece.status = some "fallback") →
          (key, piece) ∈ state2.pieces)) ∧
      (∀ key piece2, (key, piece2) ∈ state2.pieces →
        ∃ piece, (key, piece) ∈
          [("token-board-1-p1",
            ({ id := "token-board-1-p1", role := "token"
               status := some "ready", url := some "/skins/pack_1/a.svg" } : PieceState)),
           ("token-board-1-p2",
            { id := "token-board-1-p2", role := "token"
              status := some "queued" })] ∧ piece2 = cancelPiece piece ∧
          piece2.url = piece.url) := by
  exact c2_mark_cancelled_semantics 100 "g1" (by decide)
    ⟨[], [("g1",
      { progressChannel := some "chan-1"
        active := true
        pieces :=
          [("token-board-1-p1",
            { id := "token-board-1-p1", role := "token"
              status := some "ready", url := some "/skins/pack_1/a.svg" }),
           ("token-board-1-p2",
            { id := "token-board-1-p2", role := "token"
              status := some "queued" })] })]⟩
    { progressChannel := some "chan-1"
      active := true
      pieces :=
        [("token-board-1-p1",
          { id := "token-board-1-p1", role := "token"
            status := some "ready", url := some "/skins/pack_1/a.svg" }),
         ("token-board-1-p2",
          { id := "token-board-1-p2", role := "token"
            status := some "queued" })] }
    (by decide)

theorem emitStateSnapshot_ainsert (now : Nat) (gameId : String)
    (hg : ¬ gameId = "") (s2 : JobState) (m : List (String × JobState)) :
    emitStateSnapshot now gameId (ainsert gameId s2 m) =
      (match trimmedChannel s2.progressChannel with
       | some ch => [Event.state ch (some gameId) (serializeJobState now s2)]
       | none => []) := by
  have hstep : emitStateSnapshot now gameId (ainsert gameId s2 m) =
      (match s2.progressChannel with
       | none => []
       | some raw =>
         if raw = "" then []
         else if jsTrim raw = "" then []
         else [Event.state (jsTrim raw) (some gameId) (serializeJobState now s2)]) := by
    unfold emitStateSnapshot
    rw [if_neg hg, alookup_ainsert_self]
  rw [hstep]
  rcases hpc : s2.progressChannel with _ | raw
  · rfl
  · unfold trimmedChannel
    by_cases h1 : raw = ""
    · simp [h1]
    · by_cases h2 : jsTrim raw = ""
      · simp [h1, h2]
      · simp [h1, h2]

/-- C9 counterexample: a job state with the non-empty progress channel
`chan-1` and a queued piece; `markJobStateCancelled` broadcasts nothing,
because it clears `progressChannel` before its `emitStateSnapshot` runs —
refuting the claim that every mutation (including cancellation marking)
broadcasts a `state` event whenever the state has a non-empty channel. -/
theorem c9_cancel_broadcast_counterexample :
    trimmedChannel ((alookup "g1"
        (⟨[], [("g1",
          { progressChannel := some "chan-1"
            active := true
            pieces := [("token-board-1-p1",
              { id := "token-board-1-p1", role := "token"
                status := some "queued" })] })]⟩ : Registries).jobStates).bind
        JobState.progressChannel) = some "chan-1" ∧
    (markJobStateCancelled 100 "g1"
        ⟨[], [("g1",
          { progressChannel := some "chan-1"
            active := true
            pieces := [("token-board-1-p1",
              { id := "token-board-1-p1", role := "token"
                status := some "queued" })] })]⟩).2 = [] := by
  decide

/-- C9 (amended): piece updates and job-level patches set `updatedAt` to
the current time and broadcast a `state` event carrying the full
serialized snapshot exactly when the post-mutation state's
`progressChannel` is non-blank; cancellation marking also sets
`updatedAt`, but clears `progressChannel` before its snapshot step and
therefore never broadcasts. -/
theorem c9_mutation_broadcast_amended (now : Nat) (gameId : String)
    (hg : ¬ gameId = "") (st : Registries) (state : JobState)
    (hs : alookup gameId st.jobStates = some state) :
    (∀ boardId role variant patch,
      ∃ state2,
        alookup gameId
            (updateJobPieceState now gameId boardId role variant patch st).1.jobStates =
          some state2 ∧
        state2.updatedAt = now ∧
        state2.progressChannel = state.progressChannel ∧
        (updateJobPieceState now gameId boardId role variant patch st).2 =
          (match trimmedChannel state.progressChannel with
           | some ch => [Event.state ch (some gameId) (serializeJobState now state2)]
           | none => [])) ∧
    (∀ patch : JobPatch,
      ∃ state2,
        alookup gameId (markJobState now gameId patch st).1.jobStates = some state2 ∧
        state2.updatedAt = now ∧
        state2.progressChannel = patch.progressChannel.getD state.progressChannel ∧
        (markJobState now gameId patch st).2 =
          (match trimmedChannel state2.progressChannel with
           | some ch => [Event.state ch (some gameId) (serializeJobState now state2)]
           | none => [])) ∧
    (∃ state3,
        alookup gameId (markJobStateCancelled now gameId st).1.jobStates = some state3 ∧
        state3.updatedAt = now ∧
        state3.progressChannel = none ∧
        (markJobStateCancelled now gameId st).2 = []) := by
  refine ⟨?_, ?_, ?_⟩
  · intro boardId role variant patch
    simp only [updateJobPieceState, if_neg hg, hs]
    exact ⟨_, alookup_ainsert_self gameId _ st.jobStates, rfl, rfl,
      emitStateSnapshot_ainsert now gameId hg _ st.jobStates⟩
  · intro patch
    simp only [markJobState, if_neg hg, hs]
    exact ⟨_, alookup_ainsert_self gameId _ st.jobStates, rfl, rfl,
      emitStateSnapshot_ainsert now gameId hg _ st.jobStates⟩
  · simp only [markJobStateCancelled, if_neg hg, hs]
    refine ⟨_, alookup_ainsert_self gameId _ st.jobStates, rfl, rfl, ?_⟩
    rw [emitStateSnapshot_ainsert now gameId hg _ st.jobStates]
    rfl

/-- Witness for C9 (amended) on a job state with channel `chan-1`. -/
theorem c9_mutation_broadcast_witness :
    ∃ state2,
      alookup "g1"
          (updateJobPieceState 100 "g1" (some "board-1") (some "token") (some "p1")
            { status := some (some "ready") }
            ⟨[], [("g1",
              { progressChannel := some "chan-1"
                active := true
                pieces := [] })]⟩).1.jobStates = some state2 ∧
      state2.updatedAt = 100 ∧
      state2.progressChannel =
        ({ progressChannel := some "chan-1", active := true,
           pieces := [] } : JobState).progressChannel ∧
      (updateJobPieceState 100 "g1" (some "board-1") (some "token") (some "p1")
          { status := some (some "ready") }
          ⟨[], [("g1",
            { progressChannel := some "chan-1"
              active := true
              pieces := [] })]⟩).2 =
        (match trimmedChannel
            ({ progressChannel := some "chan-1", active := true,
               pieces := [] } : JobState).progressChannel with
         | some ch => [Event.state ch (some "g1") (serializeJobState 100 state2)]
         | none => []) := by
  exact (c9_mutation_broadcast_amended 100 "g1" (by decide)
      ⟨[], [("g1", { progressChannel := some "chan-1", active := true, pieces := [] })]⟩
      { progressChannel := some "chan-1", active := true, pieces := [] }
      (by decide)).1 (some "board-1") (some "token") (some "p1")
      { status := some (some "ready") }

theorem isOpenAiSvgAvailable_openai (key : Option String) (env : Bool) :
    isOpenAiSvgAvailable "openai" key env = key.isSome := by
  cases key <;> rfl

/-- C1: a `POST /packs` create request that reaches the conflict check
(valid payload, provider guards passing) while its game id is already in
the pending-job registry is rejected with 409, and neither `pendingJobs`
nor `jobStates` is mutated. -/
theorem c1_conflict_rejected (now : Nat) (req : CreateReq) (controller : Nat)
    (packId freshChannel : String) (env : Bool) (seed : JobSeed) (st : Registries)
    (hvalid : req.valid = true)
    (hg1 : ¬ (req.renderStyle = "vector" ∧ effectiveVectorProviderOf req = "openai" ∧
      openAiKeyOf req = none))
    (hg2 : ¬ (req.renderStyle = "photoreal" ∧ openAiKeyOf req = none))
    (hgame : jsTruthy req.gameId = true)
    (hpending : (alookup (req.gameId.getD "") st.pendingJobs).isSome = true) :
    (createPackRegistryPhase now req controller packId freshChannel env seed st).outcome =
      CreateOutcome.conflict ∧
    (createPackRegistryPhase now req controller packId freshChannel env seed st).registries =
      st := by
  have hc1 : ¬ ¬ (req.valid = true) := not_not_intro hvalid
  have hc2 : ¬ (req.renderStyle = "vector" ∧ effectiveVectorProviderOf req = "openai" ∧
      ¬ (isOpenAiSvgAvailable "openai" (openAiKeyOf req) env = true)) := by
    rintro ⟨ha, hb, hc⟩
    rw [isOpenAiSvgAvailable_openai] at hc
    refine hg1 ⟨ha, hb, ?_⟩
    cases hk : openAiKeyOf req
    · rfl
    · rw [hk] at hc
      exact absurd rfl hc
  have hc4 : jsTruthy req.gameId = true ∧
      ((alookup (req.gameId.getD "") st.pendingJobs).isSome = true) := ⟨hgame, hpending⟩
  simp only [createPackRegistryPhase]
  rw [if_neg hc1, if_neg hc2, if_neg hg2, if_pos hc4]
  exact ⟨rfl, rfl⟩

/-- Witness for C1: a valid vector/auto request for game `g1` while `g1`
already has a pending job. -/
theorem c1_conflict_rejected_witness :
    (createPackRegistryPhase 100
        { valid := true, gameId := some "g1", renderStyle := "vector"
          vectorProvider := "auto", progressChannel := some "chan-1" }
        4 "pack_2" "fresh" false {}
        ⟨[("g1", { controller := 3, progressChannel := some "chan-0"
                   packId := some "pack_1", startedAt := 50 })], []⟩).outcome =
      CreateOutcome.conflict ∧
    (createPackRegistryPhase 100
        { valid := true, gameId := some "g1", renderStyle := "vector"
          vectorProvider := "auto", progressChannel := some "chan-1" }
        4 "pack_2" "fresh" false {}
        ⟨[("g1", { controller := 3, progressChannel := some "chan-0"
                   packId := some "pack_1", startedAt := 50 })], []⟩).registries =
      ⟨[("g1", { controller := 3, progressChannel := some "chan-0"
                 packId := some "pack_1", startedAt := 50 })], []⟩ :=
  c1_conflict_rejected 100
    { valid := true, gameId := some "g1", renderStyle := "vector"
      vectorProvider := "auto", progressChannel := some "chan-1" }
    4 "pack_2" "fresh" false {}
    ⟨[("g1", { controller := 3, progressChannel := some "chan-0"
               packId := some "pack_1", startedAt := 50 })], []⟩
    rfl (by decide) (by decide) rfl rfl

/-- C10: a create request with no (truthy) game id proceeds without
registering a `PendingJob` or seeding a `JobState` — the exclusivity
check is skipped, the registries are untouched (so any number of such
jobs can run concurrently), every generation-phase registry mutator is a
no-op for a falsy game id, and the cancel/status/state endpoints observe
exactly what they observed before the request. -/
theorem c10_no_game_id_invisible (now : Nat) (req : CreateReq) (controller : Nat)
    (packId freshChannel : String) (env : Bool) (seed : JobSeed) (st : Registries)
    (hvalid : req.valid = true)
    (hg1 : ¬ (req.renderStyle = "vector" ∧ effectiveVectorProviderOf req = "openai" ∧
      openAiKeyOf req = none))
    (hg2 : ¬ (req.renderStyle = "photoreal" ∧ openAiKeyOf req = none))
    (hgame : jsTruthy req.gameId = false) :
    ((createPackRegistryPhase now req controller packId freshChannel env seed st).outcome =
        CreateOutcome.started ∧
      (createPackRegistryPhase now req controller packId freshChannel env seed st).registries =
        st) ∧
    ((createPackRegistryPhase now req controller packId freshChannel env seed
        (createPackRegistryPhase now req controller packId freshChannel env seed
          st).registries).outcome = CreateOutcome.started) ∧
    (∀ now2 boardId role variant patch st2,
      updateJobPieceState now2 "" boardId role variant patch st2 = (st2, [])) ∧
    (∀ now2 patch st2, markJobState now2 "" patch st2 = (st2, [])) ∧
    (∀ now2 st2, markJobStateCancelled now2 "" st2 = (st2, [])) ∧
    (∀ now2 g job st2, jsTruthy g = false → trackPendingJob now2 g job st2 = st2) ∧
    (∀ now2 g seed2 st2, jsTruthy g = false → seedJobState now2 g seed2 st2 = st2) ∧
    (∀ g u, cancelJobHandler now g u
        (createPackRegistryPhase now req controller packId freshChannel env seed
          st).registries = cancelJobHandler now g u st) ∧
    (∀ g u, jobStatusHandler g u
        (createPackRegistryPhase now req controller packId freshChannel env seed
          st).registries = jobStatusHandler g u st) ∧
    (∀ g u, jobStateHandler now g u
        (createPackRegistryPhase now req controller packId freshChannel env seed
          st).registries = jobStateHandler now g u st) := by
  have hc1 : ¬ ¬ (req.valid = true) := not_not_intro hvalid
  have hc2 : ¬ (req.renderStyle = "vector" ∧ effectiveVectorProviderOf req = "openai" ∧
      ¬ (isOpenAiSvgAvailable "openai" (openAiKeyOf req) env = true)) := by
    rintro ⟨ha, hb, hc⟩
    rw [isOpenAiSvgAvailable_openai] at hc
    refine hg1 ⟨ha, hb, ?_⟩
    cases hk : openAiKeyOf req
    · rfl
    · rw [hk] at hc
      exact absurd rfl hc
  have hc4 : ¬ (jsTruthy req.gameId = true ∧
      ((alookup (req.gameId.getD "") st.pendingJobs).isSome = true)) := by
    rintro ⟨h, _⟩
    rw [hgame] at h
    exact Bool.false_ne_true h
  have hfalse : ¬ (jsTruthy req.gameId = true) := by
    rw [hgame]
    exact Bool.false_ne_true
  have hmain : createPackRegistryPhase now req controller packId freshChannel env seed st =
      ⟨.started, st,
        (if req.renderStyle = "vector" ∧ normalizedLocationOf req = some "remote" ∧
            ¬ (req.renderStyle = "vector" ∧
              isOpenAiSvgAvailable
                (if req.renderStyle = "vector" then effectiveVectorProviderOf req else "auto")
                (openAiKeyOf req) env = true) ∧ jsTruthy req.gameId = true then
          [Event.plain (progressChannelResolvedOf req freshChannel) .notice req.gameId]
        else []) ++
          [Event.plain (progressChannelResolvedOf req freshChannel) .start
            (if jsTruthy req.gameId = true then req.gameId else none)] ++ []⟩ := by
    simp only [createPackRegistryPhase]
    rw [if_neg hc1, if_neg hc2, if_neg hg2, if_neg hc4, if_neg hfalse, if_neg hfalse,
      if_neg hfalse, if_neg hfalse]
  refine ⟨⟨by rw [hmain], by rw [hmain]⟩, ?_, ?_, ?_, ?_, ?_, ?_, ?_, ?_, ?_⟩
  · rw [hmain]
    have h2 := hmain
    rw [show (⟨.started, st, _⟩ : CreateStepResult).registries = st from rfl]
    rw [hmain]
  · intro now2 boardId role variant patch st2
    rfl
  · intro now2 patch st2
    rfl
  · intro now2 st2
    rfl
  · intro now2 g job st2 hgf
    simp only [trackPendingJob]
    rw [if_pos]
    rw [hgf]
    exact Bool.false_ne_true
  · intro now2 g seed2 st2 hgf
    simp only [seedJobState]
    rw [if_pos]
    rw [hgf]
    exact Bool.false_ne_true
  · intro g u
    rw [hmain]
  · intro g u
    rw [hmain]
  · intro g u
    rw [hmain]

/-- Witness for C10: a valid request without a game id against a registry
that already has a pending job for `g1`. -/
theorem c10_no_game_id_witness :
    (createPackRegistryPhase 100
        { valid := true, gameId := none, renderStyle := "vector"
          vectorProvider := "auto" }
        4 "pack_2" "fresh" false {}
        ⟨[("g1", { controller := 3, progressChannel := some "chan-0"
                   packId := some "pack_1", startedAt := 50 })], []⟩).outcome =
      CreateOutcome.started ∧
    (createPackRegistryPhase 100
        { valid := true, gameId := none, renderStyle := "vector"
          vectorProvider := "auto" }
        4 "pack_2" "fresh" false {}
        ⟨[("g1", { controller := 3, progressChannel := some "chan-0"
                   packId := some "pack_1", startedAt := 50 })], []⟩).registries =
      ⟨[("g1", { controller := 3, progressChannel := some "chan-0"
                 packId := some "pack_1", startedAt := 50 })], []⟩ :=
  (c10_no_game_id_invisible 100
    { valid := true, gameId := none, renderStyle := "vector", vectorProvider := "auto" }
    4 "pack_2" "fresh" false {}
    ⟨[("g1", { controller := 3, progressChannel := some "chan-0"
               packId := some "pack_1", startedAt := 50 })], []⟩
    rfl (by decide) (by decide) rfl).1

theorem markJobStateCancelled_pendingJobs (now : Nat) (g : String) (s : Registries) :
    (markJobStateCancelled now g s).1.pendingJobs = s.pendingJobs := by
  unfold markJobStateCancelled
  by_cases hgg : g = ""
  · rw [if_pos hgg]
  · rw [if_neg hgg]
    rcases halook : alookup g s.jobStates with _ | state
    · rfl
    · rfl

theorem markJobStateCancelled_owner_check (now : Nat) (g : String) (s : Registries)
    (u : Option String) :
    ownerCheckPasses u (alookup g (markJobStateCancelled now g s).1.jobStates) =
      ownerCheckPasses u (alookup g s.jobStates) := by
  unfold markJobStateCancelled
  by_cases hgg : g = ""
  · rw [if_pos hgg]
  · rw [if_neg hgg]
    rcases halook : alookup g s.jobStates with _ | state
    · rw [halook]
    · show ownerCheckPasses u
          (alookup g (ainsert g
            { state with
              pieces := state.pieces.map (fun kp => (kp.1, cancelPiece kp.2))
              active := false
              activePiece := none
              progressChannel := none
              updatedAt := now } s.jobStates)) =
        ownerCheckPasses u (some state)
      rw [alookup_ainsert_self]
      rfl

theorem cancelJobHandler_no_job (now : Nat) (gameId requestUserId : Option String)
    (regs : Registries) (hg : jsTruthy gameId = true)
    (hOwner : ownerCheckPasses requestUserId
      (alookup (gameId.getD "") regs.jobStates) = true)
    (hnone : alookup (gameId.getD "") regs.pendingJobs = none) :
    cancelJobHandler now gameId requestUserId regs = ⟨200, some false, regs, [], []⟩ := by
  have hng : ¬ ¬ (jsTruthy gameId = true) := not_not_intro hg
  have hOwnerNeg : ¬ ((alookup (gameId.getD "") regs.jobStates).isSome = true ∧
      ¬ (ownerCheckPasses requestUserId
        (alookup (gameId.getD "") regs.jobStates) = true)) :=
    fun h => h.2 hOwner
  simp only [cancelJobHandler]
  rw [if_neg hng, if_neg hOwnerNeg, hnone]

/-- C8: `POST /packs/jobs/cancel` is idempotent.  With no pending job for
the game id it answers `{cancelled:false}` and mutates nothing; with one
it removes the pending job, marks the job state cancelled, aborts exactly
that job's controller — and a second cancel for the same game id then
answers `{cancelled:false}` without further mutation. -/
theorem c8_cancel_idempotent (now : Nat) (gameId : Option String)
    (requestUserId : Option String) (st : Registries)
    (hg : jsTruthy gameId = true)
    (hOwner : ownerCheckPasses requestUserId
      (alookup (gameId.getD "") st.jobStates) = true) :
    (alookup (gameId.getD "") st.pendingJobs = none →
      cancelJobHandler now gameId requestUserId st = ⟨200, some false, st, [], []⟩) ∧
    (∀ job, alookup (gameId.getD "") st.pendingJobs = some job →
      (cancelJobHandler now gameId requestUserId st).status = 200 ∧
      (cancelJobHandler now gameId requestUserId st).cancelled = some true ∧
      (cancelJobHandler now gameId requestUserId st).aborted = [job.controller] ∧
      alookup (gameId.getD "")
        (cancelJobHandler now gameId requestUserId st).registries.pendingJobs = none ∧
      (cancelJobHandler now gameId requestUserId st).registries.jobStates =
        (markJobStateCancelled now (gameId.getD "")
          { st with pendingJobs := aerase (gameId.getD "") st.pendingJobs }).1.jobStates ∧
      cancelJobHandler now gameId requestUserId
          (cancelJobHandler now gameId requestUserId st).registries =
        ⟨200, some false,
          (cancelJobHandler now gameId requestUserId st).registries, [], []⟩) := by
  have hng : ¬ ¬ (jsTruthy gameId = true) := not_not_intro hg
  have hOwnerNeg : ¬ ((alookup (gameId.getD "") st.jobStates).isSome = true ∧
      ¬ (ownerCheckPasses requestUserId (alookup (gameId.getD "") st.jobStates) = true)) :=
    fun h => h.2 hOwner
  constructor
  · intro hnone
    exact cancelJobHandler_no_job now gameId requestUserId st hg hOwner hnone
  · intro job hjob
    have hrun : cancelJobHandler now gameId requestUserId st =
        (let st1 : Registries :=
          { st with pendingJobs := aerase (gameId.getD "") st.pendingJobs }
         let r2 := markJobStateCancelled now (gameId.getD "") st1
         let chEvents :=
          if jsTruthy job.progressChannel then
            [Event.plain (job.progressChannel.getD "") .cancelled (some (gameId.getD "")),
             Event.plain (job.progressChannel.getD "") .close none]
          else []
         ⟨200, some true, r2.1, [job.controller], r2.2 ++ chEvents⟩) := by
      simp only [cancelJobHandler]
      rw [if_neg hng, if_neg hOwnerNeg, hjob]
    have hpend : alookup (gameId.getD "")
        (cancelJobHandler now gameId requestUserId st).registries.pendingJobs = none := by
      rw [hrun]
      show alookup (gameId.getD "")
        (markJobStateCancelled now (gameId.getD "")
          { st with pendingJobs := aerase (gameId.getD "") st.pendingJobs }).1.pendingJobs =
        none
      rw [markJobStateCancelled_pendingJobs]
      rw [show ({ st with pendingJobs := aerase (gameId.getD "") st.pendingJobs } :
        Registries).pendingJobs = aerase (gameId.getD "") st.pendingJobs from rfl]
      rw [alookup_aerase]
      rw [if_pos rfl]
    have hOwner2 : ownerCheckPasses requestUserId
        (alookup (gameId.getD "")
          (cancelJobHandler now gameId requestUserId st).registries.jobStates) = true := by
      rw [hrun]
      show ownerCheckPasses requestUserId
        (alookup (gameId.getD "")
          (markJobStateCancelled now (gameId.getD "")
            { st with pendingJobs := aerase (gameId.getD "") st.pendingJobs }).1.jobStates) =
        true
      rw [markJobStateCancelled_owner_check]
      exact hOwner
    refine ⟨by rw [hrun], by rw [hrun], by rw [hrun], hpend, by rw [hrun], ?_⟩
    exact cancelJobHandler_no_job now gameId requestUserId
      (cancelJobHandler now gameId requestUserId st).registries hg hOwner2 hpend

/-- Witness for C8: cancelling game `g1` which has a pending job and a
seeded job state, then cancelling again. -/
theorem c8_cancel_idempotent_witness :
    (cancelJobHandler 100 (some "g1") none
      ⟨[("g1", { controller := 3, progressChannel := some "chan-0"
                 packId := some "pack_1", startedAt := 50 })],
       [("g1", { progressChannel := some "chan-0", active := true, pieces := [] })]⟩).status =
      200 ∧
    (cancelJobHandler 100 (some "g1") none
      ⟨[("g1", { controller := 3, progressChannel := some "chan-0"
                 packId := some "pack_1", startedAt := 50 })],
       [("g1", { progressChannel := some "chan-0", active := true, pieces := [] })]⟩).cancelled =
      some true ∧
    (cancelJobHandler 100 (some "g1") none
      ⟨[("g1", { controller := 3, progressChannel := some "chan-0"
                 packId := some "pack_1", startedAt := 50 })],
       [("g1", { progressChannel := some "chan-0", active := true, pieces := [] })]⟩).aborted =
      [3] ∧
    alookup "g1" (cancelJobHandler 100 (some "g1") none
      ⟨[("g1", { controller := 3, progressChannel := some "chan-0"
                 packId := some "pack_1", startedAt := 50 })],
       [("g1", { progressChannel := some "chan-0", active := true,
                 pieces := [] })]⟩).registries.pendingJobs = none ∧
    (cancelJobHandler 100 (some "g1") none
      ⟨[("g1", { controller := 3, progressChannel := some "chan-0"
                 packId := some "pack_1", startedAt := 50 })],
       [("g1", { progressChannel := some "chan-0", active := true,
                 pieces := [] })]⟩).registries.jobStates =
      (markJobStateCancelled 100 "g1"
        { pendingJobs := aerase "g1"
            [("g1", { controller := 3, progressChannel := some "chan-0"
                      packId := some "pack_1", startedAt := 50 })]
          jobStates :=
            [("g1", { progressChannel := some "chan-0", active := true,
                      pieces := [] })] }).1.jobStates ∧
    cancelJobHandler 100 (some "g1") none
        (cancelJobHandler 100 (some "g1") none
          ⟨[("g1", { controller := 3, progressChannel := some "chan-0"
                     packId := some "pack_1", startedAt := 50 })],
           [("g1", { progressChannel := some "chan-0", active := true,
                     pieces := [] })]⟩).registries =
      ⟨200, some false,
        (cancelJobHandler 100 (some "g1") none
          ⟨[("g1", { controller := 3, progressChannel := some "chan-0"
                     packId := some "pack_1", startedAt := 50 })],
           [("g1", { progressChannel := some "chan-0", active := true,
                     pieces := [] })]⟩).registries, [], []⟩ := by
  have h := (c8_cancel_idempotent 100 (some "g1") none
    ⟨[("g1", { controller := 3, progressChannel := some "chan-0"
               packId := some "pack_1", startedAt := 50 })],
     [("g1", { progressChannel := some "chan-0", active := true, pieces := [] })]⟩
    rfl (by decide)).2
    { controller := 3, progressChannel := some "chan-0"
      packId := some "pack_1", startedAt := 50 } (by decide)
  exact h

theorem insertDesc_perm (x : GamePackInfo) (l : List GamePackInfo) :
    (insertDesc x l).Perm (x :: l) := by
  induction l with
  | nil => exact List.Perm.refl _
  | cons y ys ih =>
    unfold insertDesc
    by_cases h : x.createdAt ≤ y.createdAt
    · rw [if_pos h]
      exact (ih.cons y).trans (List.Perm.swap x y ys)
    · rw [if_neg h]

theorem sortByCreatedAtDesc_perm (l : List GamePackInfo) :
    (sortByCreatedAtDesc l).Perm l := by
  induction l with
  | nil => exact List.Perm.refl _
  | cons x xs ih => exact (insertDesc_perm x _).trans (ih.cons x)

theorem insertDesc_sorted (x : GamePackInfo) (l : List GamePackInfo)
    (hl : l.Pairwise (fun a b => b.createdAt ≤ a.createdAt)) :
    (insertDesc x l).Pairwise (fun a b => b.createdAt ≤ a.createdAt) := by
  induction l with
  | nil => exact List.pairwise_singleton _ _
  | cons y ys ih =>
    have hy := (List.pairwise_cons.mp hl).1
    have hys := (List.pairwise_cons.mp hl).2
    unfold insertDesc
    by_cases h : x.createdAt ≤ y.createdAt
    · rw [if_pos h]
      refine List.pairwise_cons.mpr ⟨?_, ih hys⟩
      intro z hz
      rcases List.mem_cons.mp ((insertDesc_perm x ys).mem_iff.mp hz) with rfl | hzys
      · exact h
      · exact hy z hzys
    · rw [if_neg h]
      refine List.pairwise_cons.mpr ⟨?_, hl⟩
      intro z hz
      rcases List.mem_cons.mp hz with rfl | hzys
      · exact le_of_lt (lt_of_not_le h)
      · exact le_trans (hy z hzys) (le_of_lt (lt_of_not_le h))

theorem sortByCreatedAtDesc_sorted (l : List GamePackInfo) :
    (sortByCreatedAtDesc l).Pairwise (fun a b => b.createdAt ≤ a.createdAt) := by
  induction l with
  | nil => exact List.Pairwise.nil
  | cons x xs ih => exact insertDesc_sorted x _ ih

theorem mem_drop_sorted_iff (s : List GamePackInfo) :
    s.Pairwise (fun a b => b.createdAt ≤ a.createdAt) →
    s.Pairwise (fun a b => a.createdAt ≠ b.createdAt) →
    ∀ (k : Nat) (x : GamePackInfo),
      (x ∈ s.drop k ↔
        x ∈ s ∧ k ≤ (s.filter (fun y => x.createdAt < y.createdAt)).length) := by
  induction s with
  | nil =>
    intro _ _ k x
    simp
  | cons h t ih =>
    intro hsort hdist k x
    have hle := (List.pairwise_cons.mp hsort).1
    have hsort_t := (List.pairwise_cons.mp hsort).2
    have hne := (List.pairwise_cons.mp hdist).1
    have hdist_t := (List.pairwise_cons.mp hdist).2
    have hlt : ∀ y ∈ t, y.createdAt < h.createdAt := fun y hy =>
      lt_of_le_of_ne (hle y hy) (fun he => hne y hy he.symm)
    cases k with
    | zero => simp
    | succ k =>
      rw [List.drop_succ_cons]
      constructor
      · intro hx
        have hxt : x ∈ t := List.mem_of_mem_drop hx
        have hIH := (ih hsort_t hdist_t k x).mp hx
        refine ⟨List.mem_cons_of_mem h hxt, ?_⟩
        have hxh : x.createdAt < h.createdAt := hlt x hxt
        have hfc : (h :: t).filter (fun y => x.createdAt < y.createdAt) =
            h :: t.filter (fun y => x.createdAt < y.createdAt) := by
          simp [List.filter_cons, hxh]
        rw [hfc, List.length_cons]
        exact Nat.succ_le_succ hIH.2
      · rintro ⟨hmem, hcnt⟩
        rcases List.mem_cons.mp hmem with rfl | hxt
        · exfalso
          have hfilt : (x :: t).filter (fun y => x.createdAt < y.createdAt) = [] := by
            rw [List.filter_eq_nil_iff]
            intro a ha
            rcases List.mem_cons.mp ha with rfl | hat
            · simp
            · simp only [decide_eq_true_eq]
              exact not_lt_of_ge (le_of_lt (hlt a hat))
          rw [hfilt] at hcnt
          exact Nat.not_succ_le_zero k hcnt
        · have hxh : x.createdAt < h.createdAt := hlt x hxt
          have hfc : (h :: t).filter (fun y => x.createdAt < y.createdAt) =
              h :: t.filter (fun y => x.createdAt < y.createdAt) := by
            simp [List.filter_cons, hxh]
          rw [hfc, List.length_cons] at hcnt
          exact (ih hsort_t hdist_t k x).mpr ⟨hxt, Nat.le_of_succ_le_succ hcnt⟩

theorem length_filter_lt_of_mem_false {p : GamePackInfo → Bool}
    {l : List GamePackInfo} {x : GamePackInfo} (hx : x ∈ l) (hpx : p x = false) :
    (l.filter p).length < l.length := by
  induction l with
  | nil => cases hx
  | cons a t ih =>
    rcases List.mem_cons.mp hx with rfl | hxt
    · have hfc : (x :: t).filter p = t.filter p := by
        simp [List.filter_cons, hpx]
      rw [hfc, List.length_cons]
      exact Nat.lt_succ_of_le (t.length_filter_le p)
    · by_cases hpa : p a = true
      · have hfc : (a :: t).filter p = a :: t.filter p := by
          simp [List.filter_cons, hpa]
        rw [hfc, List.length_cons, List.length_cons]
        exact Nat.succ_lt_succ (ih hxt)
      · have hpa2 : p a = false := Bool.eq_false_iff.mpr hpa
        have hfc : (a :: t).filter p = t.filter p := by
          simp [List.filter_cons, hpa2]
        rw [hfc, List.length_cons]
        exact Nat.lt_succ_of_lt (ih hxt)

theorem runDeletes_map_fst (rmOk : String → Bool) (keep : List String)
    (l : List GamePackInfo) :
    (runDeletes rmOk keep l).map Prod.fst =
      (l.filter (fun i => !(keep.contains i.name))).map GamePackInfo.name := by
  induction l with
  | nil => rfl
  | cons i rest ih =>
    unfold runDeletes
    by_cases h : keep.contains i.name = true
    · rw [if_pos h]
      have hmemk : i.name ∈ keep := by
        simpa using h
      have hfc : (i :: rest).filter (fun j => !(keep.contains j.name)) =
          rest.filter (fun j => !(keep.contains j.name)) := by
        simp [List.filter_cons, hmemk]
      rw [hfc]
      exact ih
    · have hnmem : ¬ i.name ∈ keep := by
        simpa using h
      rw [if_neg h]
      have hfc : (i :: rest).filter (fun j => !(keep.contains j.name)) =
          i :: rest.filter (fun j => !(keep.contains j.name)) := by
        simp [List.filter_cons, hnmem]
      rw [hfc, List.map_cons, List.map_cons]
      rw [ih]

/-- C7: with `keepLatest = 2`, cleanup attempts to delete exactly the
pack directories whose sidecar metadata assigns them to the target game
and which have at least two strictly newer packs of that game, except
those whose id is in the preserve set; which packs are attempted is
independent of individual deletion failures, and nothing outside the
game's packs is ever attempted. -/
theorem c7_retention_cleanup (gameId : String) (entries : List PackDirEnt)
    (keepIds : List String) (rmOk : String → Bool)
    (hg : ¬ jsTrim gameId = "")
    (hdist : (gamePacksInfoOf (jsTrim gameId) entries).Pairwise
      (fun a b => a.createdAt ≠ b.createdAt))
    (hnames : ((gamePacksInfoOf (jsTrim gameId) entries).map GamePackInfo.name).Nodup) :
    (∀ i ∈ gamePacksInfoOf (jsTrim gameId) entries,
      (i.name ∈ (cleanupOldPacksForGame (some gameId) entries 2 keepIds rmOk).map Prod.fst ↔
        (2 ≤ ((gamePacksInfoOf (jsTrim gameId) entries).filter
            (fun j => i.createdAt < j.createdAt)).length ∧
          ¬ i.name ∈ keepSetOf keepIds))) ∧
    (∀ n ∈ (cleanupOldPacksForGame (some gameId) entries 2 keepIds rmOk).map Prod.fst,
      ∃ i ∈ gamePacksInfoOf (jsTrim gameId) entries, i.name = n) ∧
    (∀ rmOk2 : String → Bool,
      (cleanupOldPacksForGame (some gameId) entries 2 keepIds rmOk2).map Prod.fst =
        (cleanupOldPacksForGame (some gameId) entries 2 keepIds rmOk).map Prod.fst) := by
  have hgne : ¬ gameId = "" := by
    intro hh
    exact hg (by rw [hh]; rfl)
  have htr : ¬ ¬ (jsTruthy (some gameId) = true) := by
    simp [jsTruthy, hgne]
  have hcleanup : ∀ rm : String → Bool,
      cleanupOldPacksForGame (some gameId) entries 2 keepIds rm =
        (if (sortByCreatedAtDesc (gamePacksInfoOf (jsTrim gameId) entries)).length > 2 then
          runDeletes rm (keepSetOf keepIds)
            ((sortByCreatedAtDesc (gamePacksInfoOf (jsTrim gameId) entries)).drop 2)
        else []) := by
    intro rm
    have hg2 : ¬ normalizeGameId (some gameId) = "" := hg
    simp only [cleanupOldPacksForGame]
    rw [if_neg htr, if_neg hg2]
    rfl
  have hperm := sortByCreatedAtDesc_perm (gamePacksInfoOf (jsTrim gameId) entries)
  have hsorted := sortByCreatedAtDesc_sorted (gamePacksInfoOf (jsTrim gameId) entries)
  have hdist2 : (sortByCreatedAtDesc (gamePacksInfoOf (jsTrim gameId) entries)).Pairwise
      (fun a b => a.createdAt ≠ b.createdAt) :=
    (hperm.pairwise_iff (fun hab => Ne.symm hab)).mpr hdist
  have hcnt : ∀ x : GamePackInfo,
      ((sortByCreatedAtDesc (gamePacksInfoOf (jsTrim gameId) entries)).filter
        (fun y => x.createdAt < y.createdAt)).length =
      ((gamePacksInfoOf (jsTrim gameId) entries).filter
        (fun y => x.createdAt < y.createdAt)).length :=
    fun x => (hperm.filter _).length_eq
  rcases Nat.lt_or_ge 2 (sortByCreatedAtDesc (gamePacksInfoOf (jsTrim gameId) entries)).length
    with hlen | hlen
  · have hattempts : ∀ rm : String → Bool,
        (cleanupOldPacksForGame (some gameId) entries 2 keepIds rm).map Prod.fst =
          (((sortByCreatedAtDesc (gamePacksInfoOf (jsTrim gameId) entries)).drop 2).filter
            (fun i => !((keepSetOf keepIds).contains i.name))).map GamePackInfo.name := by
      intro rm
      rw [hcleanup rm, if_pos hlen, runDeletes_map_fst]
    refine ⟨?_, ?_, ?_⟩
    · intro i hi
      rw [hattempts rmOk]
      constructor
      · intro hmem
        rcases List.mem_map.mp hmem with ⟨j, hjfil, hjn⟩
        have hjdrop := (List.mem_filter.mp hjfil).1
        have hjkeep := (List.mem_filter.mp hjfil).2
        have hjinfos : j ∈ gamePacksInfoOf (jsTrim gameId) entries :=
          hperm.mem_iff.mp (List.mem_of_mem_drop hjdrop)
        have hji : j = i := List.inj_on_of_nodup_map hnames hjinfos hi hjn
        subst hji
        have hidrop := (mem_drop_sorted_iff _ hsorted hdist2 2 j).mp hjdrop
        refine ⟨?_, ?_⟩
        · rw [← hcnt j]
          exact hidrop.2
        · intro hk
          have : ((keepSetOf keepIds).contains j.name) = true := by
            simpa using hk
          rw [this] at hjkeep
          simp at hjkeep
      · rintro ⟨hcnt2, hnk⟩
        have hisort : i ∈ sortByCreatedAtDesc (gamePacksInfoOf (jsTrim gameId) entries) :=
          hperm.mem_iff.mpr hi
        have hidrop : i ∈ (sortByCreatedAtDesc
            (gamePacksInfoOf (jsTrim gameId) entries)).drop 2 := by
          refine (mem_drop_sorted_iff _ hsorted hdist2 2 i).mpr ⟨hisort, ?_⟩
          rw [hcnt i]
          exact hcnt2
        have hifil : i ∈ ((sortByCreatedAtDesc
            (gamePacksInfoOf (jsTrim gameId) entries)).drop 2).filter
            (fun j => !((keepSetOf keepIds).contains j.name)) := by
          refine List.mem_filter.mpr ⟨hidrop, ?_⟩
          simp [hnk]
        exact List.mem_map.mpr ⟨i, hifil, rfl⟩
    · intro n hn
      rw [hattempts rmOk] at hn
      rcases List.mem_map.mp hn with ⟨j, hjfil, hjn⟩
      exact ⟨j, hperm.mem_iff.mp (List.mem_of_mem_drop (List.mem_filter.mp hjfil).1), hjn⟩
    · intro rm2
      rw [hattempts rm2, hattempts rmOk]
  · have hemp : ∀ rm : String → Bool,
        cleanupOldPacksForGame (some gameId) entries 2 keepIds rm = [] := by
      intro rm
      rw [hcleanup rm, if_neg (not_lt.mpr hlen)]
    refine ⟨?_, ?_, ?_⟩
    · intro i hi
      rw [hemp rmOk]
      simp only [List.map_nil, List.not_mem_nil, false_iff]
      rintro ⟨h2, _⟩
      have hself : (fun y : GamePackInfo => decide (i.createdAt < y.createdAt)) i = false := by
        simp
      have hlt2 := @length_filter_lt_of_mem_false
        (fun y => decide (i.createdAt < y.createdAt))
        (gamePacksInfoOf (jsTrim gameId) entries) i hi hself
      have hlenle : (gamePacksInfoOf (jsTrim gameId) entries).length ≤ 2 := by
        rw [← hperm.length_eq]
        exact hlen
      omega
    · intro n hn
      rw [hemp rmOk] at hn
      simp at hn
    · intro rm2
      rw [hemp rm2, hemp rmOk]

/-- Witness for C7: five `g1` packs with increasing timestamps, one `g2`
pack, the oldest `g1` pack preserved. -/
theorem c7_retention_cleanup_witness :
    (∀ i ∈ gamePacksInfoOf (jsTrim "g1") c7Entries,
      (i.name ∈ (cleanupOldPacksForGame (some "g1") c7Entries 2 ["pack_100_a"]
          (fun _ => true)).map Prod.fst ↔
        (2 ≤ ((gamePacksInfoOf (jsTrim "g1") c7Entries).filter
            (fun j => i.createdAt < j.createdAt)).length ∧
          ¬ i.name ∈ keepSetOf ["pack_100_a"]))) ∧
    (∀ n ∈ (cleanupOldPacksForGame (some "g1") c7Entries 2 ["pack_100_a"]
        (fun _ => true)).map Prod.fst,
      ∃ i ∈ gamePacksInfoOf (jsTrim "g1") c7Entries, i.name = n) ∧
    (∀ rmOk2 : String → Bool,
      (cleanupOldPacksForGame (some "g1") c7Entries 2 ["pack_100_a"] rmOk2).map Prod.fst =
        (cleanupOldPacksForGame (some "g1") c7Entries 2 ["pack_100_a"]
          (fun _ => true)).map Prod.fst) :=
  c7_retention_cleanup "g1" c7Entries ["pack_100_a"] (fun _ => true)
    (by decide) (by decide) (by decide)

theorem ensureChannel_of_lookup (hub : SseHub) (cid : String) (entry : SseChannel)
    (hlook : alookup cid hub.channels = some entry) :
    ensureChannel hub cid = (hub, entry) := by
  unfold ensureChannel
  rw [hlook]

theorem sseEmitProgress_spec (cid : String) (hcid : ¬ cid = "") (event : String)
    (data : Nat) (hub : SseHub) (cl : List Nat) (b : List (String × Nat))
    (ab : Option Nat) (hlook : alookup cid hub.channels = some ⟨cl, b, ab⟩)
    (hcl : ¬ cl = []) :
    (sseEmitProgress cid event data hub).hub =
      ⟨ainsert cid
        ⟨cl,
          if (b ++ [(event, data)]).length > BUFFER_LIMIT then (b ++ [(event, data)]).tail
          else b ++ [(event, data)], ab⟩ hub.channels⟩ ∧
    (sseEmitProgress cid event data hub).writes =
      cl.map (fun c => (c, event, data)) := by
  have hens := ensureChannel_of_lookup hub cid ⟨cl, b, ab⟩ hlook
  have hcl0 : ¬ ((⟨cl, b, ab⟩ : SseChannel).clients.length = 0) := by
    intro h
    exact hcl (List.length_eq_zero.mp h)
  simp only [sseEmitProgress, if_neg hcid, hens]
  rw [if_neg hcl0]
  exact ⟨rfl, rfl⟩

theorem sseEmitProgress_drops_empty (cid : String) (hcid : ¬ cid = "")
    (event : String) (data : Nat) (hub : SseHub) (b : List (String × Nat))
    (ab : Option Nat) (hlook : alookup cid hub.channels = some ⟨[], b, ab⟩) :
    alookup cid (sseEmitProgress cid event data hub).hub.channels = none := by
  have hens := ensureChannel_of_lookup hub cid ⟨[], b, ab⟩ hlook
  have hcl0 : (⟨[], b, ab⟩ : SseChannel).clients.length = 0 := rfl
  simp only [sseEmitProgress, if_neg hcid, hens]
  rw [if_pos hcl0, alookup_aerase, if_pos rfl]

theorem registerClient_spec (cid : String) (client : Nat) (hub : SseHub)
    (cl : List Nat) (b : List (String × Nat)) (ab : Option Nat)
    (hlook : alookup cid hub.channels = some ⟨cl, b, ab⟩) :
    registerClient cid client hub =
      (⟨ainsert cid ⟨cl ++ [client], b, ab⟩ hub.channels⟩, b) := by
  have hens := ensureChannel_of_lookup hub cid ⟨cl, b, ab⟩ hlook
  simp only [registerClient, hens]

theorem sseEmitAll_live (cid : String) (hcid : ¬ cid = "") :
    ∀ (events : List (String × Nat)) (hub : SseHub) (cl : List Nat)
      (b : List (String × Nat)) (ab : Option Nat),
      alookup cid hub.channels = some ⟨cl, b, ab⟩ →
      ¬ cl = [] →
      (b ++ events).length ≤ BUFFER_LIMIT →
      alookup cid (sseEmitAll cid events hub).channels = some ⟨cl, b ++ events, ab⟩ := by
  intro events
  induction events with
  | nil =>
    intro hub cl b ab hlook hcl hlen
    rw [show sseEmitAll cid [] hub = hub from rfl]
    rw [hlook, List.append_nil]
  | cons ev rest ih =>
    intro hub cl b ab hlook hcl hlen
    have hlen1 : ¬ ((b ++ [(ev.1, ev.2)]).length > BUFFER_LIMIT) := by
      simp only [List.length_append, List.length_cons, List.length_nil] at hlen ⊢
      omega
    have hspec := sseEmitProgress_spec cid hcid ev.1 ev.2 hub cl b ab hlook hcl
    have hstep : (sseEmitProgress cid ev.1 ev.2 hub).hub =
        ⟨ainsert cid ⟨cl, b ++ [(ev.1, ev.2)], ab⟩ hub.channels⟩ := by
      rw [hspec.1, if_neg hlen1]
    have hall : sseEmitAll cid (ev :: rest) hub =
        sseEmitAll cid rest (sseEmitProgress cid ev.1 ev.2 hub).hub := rfl
    rw [hall, hstep]
    have hlook2 : alookup cid
        (⟨ainsert cid ⟨cl, b ++ [(ev.1, ev.2)], ab⟩ hub.channels⟩ : SseHub).channels =
        some ⟨cl, b ++ [(ev.1, ev.2)], ab⟩ := alookup_ainsert_self cid _ hub.channels
    have hlen2 : ((b ++ [(ev.1, ev.2)]) ++ rest).length ≤ BUFFER_LIMIT := by
      simp only [List.length_append, List.length_cons, List.length_nil] at hlen ⊢
      omega
    have := ih _ cl (b ++ [(ev.1, ev.2)]) ab hlook2 hcl hlen2
    rw [this]
    rw [List.append_assoc]
    rfl

/-- C3 counterexample: publish three events on channel `c` of the SSE hub
before any subscriber attaches, then subscribe — the subscriber replays
nothing (the claim requires all three in order), because each publish on a
channel with zero clients deletes the channel entry together with its
replay buffer. -/
theorem c3_replay_counterexample :
    (registerClient "c" 7
      (sseEmitProgress "c" "piece" 3
        (sseEmitProgress "c" "piece" 2
          (sseEmitProgress "c" "piece" 1 ⟨[]⟩).hub).hub).hub).2 = [] ∧
    ¬ ((registerClient "c" 7
      (sseEmitProgress "c" "piece" 3
        (sseEmitProgress "c" "piece" 2
          (sseEmitProgress "c" "piece" 1 ⟨[]⟩).hub).hub).hub).2 =
      [("piece", 1), ("piece", 2), ("piece", 3)]) := by
  decide

/-- C3 (amended): publish appends to the channel's bounded FIFO buffer
(capacity 200, oldest dropped when full) and fans out to every attached
client — but only while at least one client stays attached: a subscriber
attaching after `n ≤ 200` events published on a channel that kept a live
client receives all `n` in original order before any subsequently
published event, whereas a publish onto a channel with zero attached
clients deletes the channel entry and its buffer, so events published
before the first subscriber are never replayed. -/
theorem c3_replay_amended (cid : String) (hcid : ¬ cid = "") (hub : SseHub)
    (cl : List Nat) (ab : Option Nat) (cNew : Nat)
    (events : List (String × Nat))
    (hlook : alookup cid hub.channels = some ⟨cl, [], ab⟩)
    (hcl : ¬ cl = [])
    (hlen : events.length ≤ BUFFER_LIMIT) :
    alookup cid (sseEmitAll cid events hub).channels = some ⟨cl, events, ab⟩ ∧
    (registerClient cid cNew (sseEmitAll cid events hub)).2 = events ∧
    (∀ event data,
      (sseEmitProgress cid event data
        (registerClient cid cNew (sseEmitAll cid events hub)).1).writes =
      (cl ++ [cNew]).map (fun c => (c, event, data))) ∧
    (∀ (hub2 : SseHub) (cl2 : List Nat) (b2 : List (String × Nat)) (ab2 : Option Nat)
        (event : String) (data : Nat),
      alookup cid hub2.channels = some ⟨cl2, b2, ab2⟩ → ¬ cl2 = [] →
      b2.length = BUFFER_LIMIT →
      (sseEmitProgress cid event data hub2).hub =
        ⟨ainsert cid ⟨cl2, (b2 ++ [(event, data)]).tail, ab2⟩ hub2.channels⟩) ∧
    (∀ (hub2 : SseHub) (b2 : List (String × Nat)) (ab2 : Option Nat)
        (event : String) (data : Nat),
      alookup cid hub2.channels = some ⟨[], b2, ab2⟩ →
      alookup cid (sseEmitProgress cid event data hub2).hub.channels = none) := by
  have hall : alookup cid (sseEmitAll cid events hub).channels =
      some ⟨cl, events, ab⟩ := by
    have := sseEmitAll_live cid hcid events hub cl [] ab hlook hcl
      (by simpa using hlen)
    simpa using this
  have hreg := registerClient_spec cid cNew (sseEmitAll cid events hub) cl events ab hall
  refine ⟨hall, ?_, ?_, ?_, ?_⟩
  · rw [hreg]
  · intro event data
    have hlook2 : alookup cid
        (registerClient cid cNew (sseEmitAll cid events hub)).1.channels =
        some ⟨cl ++ [cNew], events, ab⟩ := by
      rw [hreg]
      exact alookup_ainsert_self cid _ _
    have hclNew : ¬ (cl ++ [cNew]) = [] := by
      simp
    exact (sseEmitProgress_spec cid hcid event data _ (cl ++ [cNew]) events ab
      hlook2 hclNew).2
  · intro hub2 cl2 b2 ab2 event data hlook2 hcl2 hfull
    have hgt : (b2 ++ [(event, data)]).length > BUFFER_LIMIT := by
      simp [List.length_append, hfull]
    have hspec := sseEmitProgress_spec cid hcid event data hub2 cl2 b2 ab2 hlook2 hcl2
    rw [hspec.1, if_pos hgt]
  · intro hub2 b2 ab2 event data hlook2
    exact sseEmitProgress_drops_empty cid hcid event data hub2 b2 ab2 hlook2

/-- Witness for C3 (amended): three events published while client 5 stays
attached are replayed, in order, to late subscriber 7. -/
theorem c3_replay_amended_witness :
    alookup "c" (sseEmitAll "c" [("piece", 1), ("piece", 2), ("piece", 3)]
      ⟨[("c", ⟨[5], [], none⟩)]⟩).channels =
      some ⟨[5], [("piece", 1), ("piece", 2), ("piece", 3)], none⟩ ∧
    (registerClient "c" 7 (sseEmitAll "c" [("piece", 1), ("piece", 2), ("piece", 3)]
      ⟨[("c", ⟨[5], [], none⟩)]⟩)).2 = [("piece", 1), ("piece", 2), ("piece", 3)] := by
  have h := c3_replay_amended "c" (by decide) ⟨[("c", ⟨[5], [], none⟩)]⟩ [5] none 7
    [("piece", 1), ("piece", 2), ("piece", 3)] (by decide) (by decide) (by decide)
  exact ⟨h.1, h.2.1⟩

end ServiceAssets
